import Mathlib

/-!
Verification of the peak-check status aggregation and refresh pipeline.

This file shallowly embeds the core of the repository:
* `inferStatusFromText` and `generateDetailedSummary`'s QuickMap pre-pass
  (src/unnamed/part_003, the status parser),
* `cleanText` (src/unnamed/part_003),
* the staleness evaluation in `ensureFreshStatus` / `ensureFreshWeather` and
  `isStale` (src/src/lib/fetch-status-on-demand.ts),
* the Caltrans road-status client `fetchLaneClosuresByBoundingBox`,
  `generateRoadStatusSummary` and `fetchRoadStatusForPeak`
  (src/unnamed/part_002),
* `scrapeUrl` (src/src/lib/firecrawl-client.ts) and the fetch orchestrator
  `fetchStatusForSource` (src/src/lib/fetch-status-on-demand.ts).

JavaScript strings are modelled as Lean `String` (lists of characters); the
sources only ever match ASCII patterns, so `String.length`, character-wise
`toLower` and `substring` agree with the JavaScript UTF-16 notions on all the
inputs of interest.  External effects (the Firecrawl service, the Caltrans
HTTP endpoints, the Prisma database, `Date.now()`) are passed in explicitly as
oracle/environment values, so every function of the embedding is executable.
-/

/-! ## Basic string machinery (JS `includes`, `toLowerCase`, `substring`, `trim`) -/

/-- Boolean prefix test on character lists. -/
def isPrefixChars : List Char → List Char → Bool
  | [], _ => true
  | _ :: _, [] => false
  | a :: w, b :: t => if a = b then isPrefixChars w t else false

/-- Boolean infix (substring) test on character lists. -/
def isInfixChars (w : List Char) : List Char → Bool
  | [] => isPrefixChars w []
  | c :: cs => isPrefixChars w (c :: cs) || isInfixChars w cs

/-- JavaScript `haystack.includes(needle)`. -/
def jsIncludes (s : String) (sub : String) : Bool :=
  isInfixChars sub.data s.data

/-- JavaScript `s.toLowerCase()` (character-wise; exact on ASCII). -/
def jsToLower (s : String) : String :=
  ⟨s.data.map Char.toLower⟩

/-- JavaScript `s.substring(0, n)`. -/
def jsSubstringTo (s : String) (n : Nat) : String :=
  ⟨s.data.take n⟩

/-- The whitespace class used by the sources (ASCII fragment of JS `\s`). -/
def jsWs (c : Char) : Bool :=
  c = ' ' ∨ c = '\t' ∨ c = '\n' ∨ c = '\r'

/-- JavaScript `s.trim()` on character lists. -/
def jsTrimChars (l : List Char) : List Char :=
  ((l.dropWhile jsWs).reverse.dropWhile jsWs).reverse

/-- JavaScript `s.trim()`. -/
def jsTrim (s : String) : String :=
  ⟨jsTrimChars s.data⟩

/-- JavaScript `arr.join(', ')`. -/
def joinComma (l : List String) : String :=
  String.intercalate ", " l

/-! ## Status parser: `inferStatusFromText` (src/unnamed/part_003 lines 17–89)

Status codes are the string union `'open' | 'closed' | 'restricted' |
'chains_required' | 'unknown'` of the source, kept as Lean strings. -/

/-- Result of `inferStatusFromText`. -/
structure ParsedStatus where
  statusCode : String
  summary : String
deriving Repr, DecidableEq

/-- `inferStatusFromText` from src/unnamed/part_003 lines 17–89: keyword buckets
checked in order restricted → chains_required → closed → open → unknown, by
case-insensitive substring containment. -/
def inferStatusFromText (rawText : String) : ParsedStatus :=
  let text := jsToLower rawText
  if jsIncludes text "restricted" ||
     (jsIncludes text "limited access" ||
      (jsIncludes text "permit required" ||
       (jsIncludes text "special restrictions" ||
        (jsIncludes text "lane closure" ||
         (jsIncludes text "construction" ||
          (jsIncludes text "accident" ||
           (jsIncludes text "incident" ||
            jsIncludes text "delay"))))))) then
    { statusCode := "restricted"
      summary := "Road conditions may affect access (see source for details)." }
  else if jsIncludes text "chains required" ||
          (jsIncludes text "chains are required" ||
           (jsIncludes text "chain control" ||
            jsIncludes text "snow chains")) then
    { statusCode := "chains_required"
      summary := "Chains required on access roads." }
  else if jsIncludes text "road closed" ||
          (jsIncludes text "fully closed" ||
           (jsIncludes text "temporarily closed" ||
            (jsIncludes text "permanently closed" ||
             (jsIncludes text "full closure" ||
              (jsIncludes text "closed" &&
               !jsIncludes text "lane closure" &&
               !jsIncludes text "construction" &&
               !jsIncludes text "restricted"))))) then
    { statusCode := "closed"
      summary := "Road closed (see source for details)." }
  else if jsIncludes text "open" ||
          (jsIncludes text "accessible" ||
           jsIncludes text "available") then
    { statusCode := "open"
      summary := "Open (see source for details)." }
  else
    { statusCode := "unknown"
      summary := "Status unclear; please read source for details." }

/-- The restricted-bucket keyword list, in source order. -/
def restrictedKeywords : List String :=
  ["restricted", "limited access", "permit required", "special restrictions",
   "lane closure", "construction", "accident", "incident", "delay"]

/-- The chains-required-bucket keyword list, in source order. -/
def chainsKeywords : List String :=
  ["chains required", "chains are required", "chain control", "snow chains"]

/-- The closed-bucket keyword list, in source order (the bare "closed" last). -/
def closedKeywords : List String :=
  ["road closed", "fully closed", "temporarily closed", "permanently closed",
   "full closure", "closed"]

/-- The open-bucket keyword list, in source order. -/
def openKeywords : List String :=
  ["open", "accessible", "available"]

/-- Pure bucket-precedence classifier as the spec describes it: each bucket
fires on plain case-insensitive substring containment of any of its keywords,
buckets tried in the fixed order restricted → chains_required → closed → open
→ unknown, with no side conditions.  Written for comparison with the code's
`inferStatusFromText`. -/
def statusCodeByBucketPrecedence (rawText : String) : String :=
  let text := jsToLower rawText
  if restrictedKeywords.any (fun k => jsIncludes text k) then "restricted"
  else if chainsKeywords.any (fun k => jsIncludes text k) then "chains_required"
  else if closedKeywords.any (fun k => jsIncludes text k) then "closed"
  else if openKeywords.any (fun k => jsIncludes text k) then "open"
  else "unknown"

/-! ## Staleness evaluation (src/src/lib/fetch-status-on-demand.ts)

Times are modelled in integer milliseconds; the source compares
`(Date.now() - fetchedAt.getTime()) / (1000*60*60) > threshold`, which for a
positive divisor is the comparison `now - fetchedAt > threshold * 3600000`. -/

/-- `STALE_THRESHOLD_HOURS = 6` expressed in milliseconds. -/
def staleThresholdMs : Int := 6 * 3600000

/-- `WEATHER_STALE_THRESHOLD_HOURS = 3` expressed in milliseconds. -/
def weatherStaleThresholdMs : Int := 3 * 3600000

/-- `isStale` from fetch-status-on-demand.ts lines 20–24: missing timestamp is
stale; otherwise stale iff the age exceeds six hours. -/
def isStale (fetchedAtMs : Option Int) (nowMs : Int) : Bool :=
  match fetchedAtMs with
  | none => true
  | some t => nowMs - t > staleThresholdMs

/-- The latest-snapshot information `ensureFreshStatus` selects per source
(`fetchedAt` and `statusSummary`). -/
structure SnapInfo where
  fetchedAtMs : Int
  statusSummary : String
deriving Repr, DecidableEq

/-- The generic road-status message test from `ensureFreshStatus` lines
301–306: the summary is truthy (non-empty) and contains one of four
placeholder phrases, case-insensitively. -/
def hasGenericRoadMessage (sourceType : String) (latest : Option SnapInfo) : Bool :=
  match latest with
  | none => false
  | some sn =>
    sn.statusSummary ≠ "" && sourceType = "ROAD_STATUS" &&
    (jsIncludes (jsToLower sn.statusSummary) "visit quickmap" ||
     jsIncludes (jsToLower sn.statusSummary) "call 1-800" ||
     jsIncludes (jsToLower sn.statusSummary) "could not be automatically retrieved" ||
     jsIncludes (jsToLower sn.statusSummary) "unable to automatically fetch")

/-- The per-source refresh decision of `ensureFreshStatus` lines 291–308 for a
land-manager or road-status source: `FORCE_REFRESH || isStaleData ||
hasGenericMessage`. -/
def needsRefreshSource (sourceType : String) (force : Bool)
    (latest : Option SnapInfo) (nowMs : Int) : Bool :=
  let isStaleData := latest.isNone || isStale (latest.map (·.fetchedAtMs)) nowMs
  force || isStaleData || hasGenericRoadMessage sourceType latest

/-- The weather refresh decision of `ensureFreshWeather` lines 218–222 (given
that the peak has coordinates): missing snapshot or age above three hours, or
the force flag. -/
def weatherNeedsRefresh (force : Bool) (latestFetchedAtMs : Option Int)
    (nowMs : Int) : Bool :=
  let isWeatherStale :=
    match latestFetchedAtMs with
    | some t => nowMs - t > weatherStaleThresholdMs
    | none => true
  force || isWeatherStale

/-- The refresh condition exactly as claim C3 states it: refresh iff no
snapshot exists, the force flag is set, or the latest snapshot is older than
the kind's threshold.  Written for comparison with `needsRefreshSource`. -/
def claimedRefreshCondition (thresholdMs : Int) (force : Bool)
    (latest : Option Int) (nowMs : Int) : Bool :=
  force || latest.isNone ||
    (match latest with
     | none => true
     | some t => nowMs - t > thresholdMs)

/-! ## Claims C2, C10, C3, C5 -/

/-- C2: `inferStatusFromText` evaluates the Restricted keyword group before the
Closed group, so any input whose lowercased text contains "lane closure" or
"construction" yields the restricted status (with its fixed summary), never
closed. -/
theorem inferStatus_restricted_before_closed (s : String)
    (h : jsIncludes (jsToLower s) "lane closure" = true ∨
         jsIncludes (jsToLower s) "construction" = true) :
    inferStatusFromText s =
      { statusCode := "restricted"
        summary := "Road conditions may affect access (see source for details)." } := by
  unfold inferStatusFromText
  rcases h with h | h <;> simp [h]

/-- Witness for C2: the spec's concrete precedence test
`inferStatusFromText("Lane closure ahead due to construction")` is Restricted. -/
theorem inferStatus_restricted_before_closed_witness :
    (jsIncludes (jsToLower "Lane closure ahead due to construction") "lane closure" = true ∨
     jsIncludes (jsToLower "Lane closure ahead due to construction") "construction" = true) ∧
    inferStatusFromText "Lane closure ahead due to construction" =
      { statusCode := "restricted"
        summary := "Road conditions may affect access (see source for details)." } :=
  ⟨Or.inl (by decide),
   inferStatus_restricted_before_closed "Lane closure ahead due to construction"
     (Or.inl (by decide))⟩

/-- C10: the status code computed by `inferStatusFromText` coincides, for every
input, with pure case-insensitive substring bucket matching under the fixed
precedence restricted → chains_required → closed → open → unknown (the side
conditions on the bare "closed" keyword are redundant given the precedence);
in particular keywords fire inside longer words and negated phrases, e.g.
"Reopened for the season" and "No open fires allowed" both classify as open. -/
theorem inferStatus_substring_buckets :
    (∀ s : String,
      (inferStatusFromText s).statusCode = statusCodeByBucketPrecedence s) ∧
    (inferStatusFromText "Reopened for the season").statusCode = "open" ∧
    (inferStatusFromText "No open fires allowed").statusCode = "open" := by
  refine ⟨fun s => ?_, by decide, by decide⟩
  unfold inferStatusFromText statusCodeByBucketPrecedence restrictedKeywords
    chainsKeywords closedKeywords openKeywords
  simp only []
  cases hre : jsIncludes (jsToLower s) "restricted" <;>
    cases hlc : jsIncludes (jsToLower s) "lane closure" <;>
      cases hco : jsIncludes (jsToLower s) "construction" <;>
        simp only [hre, hlc, hco, List.any_cons, List.any_nil, Bool.or_false,
          Bool.false_or, Bool.or_true, Bool.true_or, Bool.not_false, Bool.not_true,
          Bool.and_true, Bool.true_and, Bool.and_false, Bool.false_and,
          apply_ite ParsedStatus.statusCode, if_true, if_false]

/-- The last-resort placeholder summary produced by `fetchRoadStatusForPeak`
(src/unnamed/part_002 lines 347–351) for a concrete peak name. -/
def genericRoadSummaryExample : String :=
  "Road conditions near Black Peak could not be automatically retrieved. Please check QuickMap (quickmap.dot.ca.gov) or call 1-800-427-7623 for current conditions."

/-- Counterexample to C3 as stated: a road-status snapshot only one hour old
(well under the six-hour threshold), with no force flag, still triggers a
refresh because its summary is a generic degraded placeholder — so "refresh
exactly when no snapshot exists, the force flag is set, or the snapshot is
older than its threshold" is false on the code. -/
theorem needsRefresh_not_exactly_age_based :
    needsRefreshSource "ROAD_STATUS" false
      (some { fetchedAtMs := 0, statusSummary := genericRoadSummaryExample }) 3600000 = true ∧
    claimedRefreshCondition staleThresholdMs false (some 0) 3600000 = false := by
  exact ⟨by decide, by decide⟩

/-- C3 amended: the refresh decision is exactly "no snapshot, or force flag,
or older than the kind's threshold (3h weather / 6h land and road), or — for
road-status sources only — the latest summary is a generic degraded
placeholder"; in particular a non-degraded snapshot younger than its threshold
triggers no refresh, and the force flag always triggers one. -/
theorem needsRefresh_characterisation :
    (∀ (force : Bool) (latest : Option SnapInfo) (nowMs : Int),
      needsRefreshSource "LAND_MANAGER" force latest nowMs =
        claimedRefreshCondition staleThresholdMs force
          (latest.map (·.fetchedAtMs)) nowMs) ∧
    (∀ (force : Bool) (latest : Option SnapInfo) (nowMs : Int),
      needsRefreshSource "ROAD_STATUS" force latest nowMs =
        (claimedRefreshCondition staleThresholdMs force
          (latest.map (·.fetchedAtMs)) nowMs ||
         hasGenericRoadMessage "ROAD_STATUS" latest)) ∧
    (∀ (force : Bool) (latest : Option Int) (nowMs : Int),
      weatherNeedsRefresh force latest nowMs =
        claimedRefreshCondition weatherStaleThresholdMs force latest nowMs) ∧
    (∀ (sourceType : String) (latest : Option SnapInfo) (nowMs : Int),
      needsRefreshSource sourceType true latest nowMs = true) ∧
    (∀ (sourceType : String) (t : Int) (summary : String) (nowMs : Int),
      nowMs - t ≤ staleThresholdMs →
      hasGenericRoadMessage sourceType
        (some { fetchedAtMs := t, statusSummary := summary }) = false →
      needsRefreshSource sourceType false
        (some { fetchedAtMs := t, statusSummary := summary }) nowMs = false) := by
  refine ⟨?_, ?_, ?_, ?_, ?_⟩
  · intro force latest nowMs
    cases latest with
    | none => simp [needsRefreshSource, claimedRefreshCondition, hasGenericRoadMessage]
    | some sn =>
      simp [needsRefreshSource, claimedRefreshCondition, hasGenericRoadMessage,
        isStale, Bool.or_assoc]
  · intro force latest nowMs
    cases latest with
    | none => simp [needsRefreshSource, claimedRefreshCondition, hasGenericRoadMessage]
    | some sn =>
      simp [needsRefreshSource, claimedRefreshCondition, isStale, Bool.or_assoc]
  · intro force latest nowMs
    cases latest with
    | none => simp [weatherNeedsRefresh, claimedRefreshCondition]
    | some t => simp [weatherNeedsRefresh, claimedRefreshCondition]
  · intro sourceType latest nowMs
    simp [needsRefreshSource]
  · intro sourceType t summary nowMs hage hgen
    simp [needsRefreshSource, isStale, hgen, Option.isNone]
    omega

/-- Witness for C3 (amended): a fresh (one-hour-old) land snapshot with an
ordinary summary triggers no refresh. -/
theorem needsRefresh_characterisation_witness :
    (3600000 : Int) - 0 ≤ staleThresholdMs ∧
    hasGenericRoadMessage "LAND_MANAGER"
      (some { fetchedAtMs := 0, statusSummary := "Open (see source for details)." }) = false ∧
    needsRefreshSource "LAND_MANAGER" false
      (some { fetchedAtMs := 0, statusSummary := "Open (see source for details)." }) 3600000 = false :=
  ⟨by decide, by decide,
   needsRefresh_characterisation.2.2.2.2 "LAND_MANAGER" 0
     "Open (see source for details)." 3600000 (by decide) (by decide)⟩

/-- C5: for road-status sources, a latest snapshot whose summary is one of the
generic degraded placeholder messages triggers a refresh regardless of age
(even when younger than the six-hour threshold), while land-status sources get
no such special case: a young land snapshot never triggers a refresh, whatever
its summary says. -/
theorem roadDegraded_placeholder_refreshes :
    (∀ (t nowMs : Int) (summary : String),
      (jsIncludes (jsToLower summary) "visit quickmap" = true ∨
       jsIncludes (jsToLower summary) "call 1-800" = true ∨
       jsIncludes (jsToLower summary) "could not be automatically retrieved" = true ∨
       jsIncludes (jsToLower summary) "unable to automatically fetch" = true) →
      summary ≠ "" →
      needsRefreshSource "ROAD_STATUS" false
        (some { fetchedAtMs := t, statusSummary := summary }) nowMs = true) ∧
    (∀ (t nowMs : Int) (summary : String),
      nowMs - t ≤ staleThresholdMs →
      needsRefreshSource "LAND_MANAGER" false
        (some { fetchedAtMs := t, statusSummary := summary }) nowMs = false) := by
  constructor
  · intro t nowMs summary hph hne
    have : hasGenericRoadMessage "ROAD_STATUS"
        (some { fetchedAtMs := t, statusSummary := summary }) = true := by
      simp [hasGenericRoadMessage, hne]
      rcases hph with h | h | h | h <;> simp [h]
    simp [needsRefreshSource, this]
  · intro t nowMs summary hage
    simp [needsRefreshSource, isStale, hasGenericRoadMessage, Option.isNone]
    omega

/-- Witness for C5: the concrete degraded placeholder summary on a one-hour-old
road snapshot triggers a refresh; the same-age land snapshot does not. -/
theorem roadDegraded_placeholder_refreshes_witness :
    needsRefreshSource "ROAD_STATUS" false
      (some { fetchedAtMs := 0, statusSummary := genericRoadSummaryExample }) 3600000 = true ∧
    needsRefreshSource "LAND_MANAGER" false
      (some { fetchedAtMs := 0, statusSummary := genericRoadSummaryExample }) 3600000 = false :=
  ⟨roadDegraded_placeholder_refreshes.1 0 3600000 genericRoadSummaryExample
     (Or.inr (Or.inl (by decide))) (by decide),
   roadDegraded_placeholder_refreshes.2 0 3600000 genericRoadSummaryExample (by decide)⟩

/-! ## A matcher for the sources' simple word regexes

The road-status code tests regexes of the shape `word1\s+word2` (alternations
of case-insensitive literal words separated by one-or-more whitespace, with an
optional trailing `s?`).  The classes involved (`\s` versus letters) are
disjoint, so greedy matching needs no backtracking; matches are collected
left-to-right and non-overlapping, exactly as JavaScript `String.match` with a
`/g` regex does. -/

/-- Match a case-insensitive literal at the head of `t`; returns the consumed
original characters and the rest. -/
def matchCaselessLit : List Char → List Char → Option (List Char × List Char)
  | [], t => some ([], t)
  | _ :: _, [] => none
  | a :: w, b :: t =>
    if b.toLower = a.toLower then
      match matchCaselessLit w t with
      | some (m, r) => some (b :: m, r)
      | none => none
    else none

/-- Match `\s+` (greedy) at the head of `t`. -/
def matchWs1 : List Char → Option (List Char × List Char)
  | [] => none
  | c :: t => if jsWs c then some (c :: t.takeWhile jsWs, t.dropWhile jsWs) else none

/-- Match a sequence of case-insensitive words separated by `\s+`. -/
def matchWordsAt : List String → List Char → Option (List Char × List Char)
  | [], t => some ([], t)
  | [w], t => matchCaselessLit w.data t
  | w :: ws, t =>
    match matchCaselessLit w.data t with
    | none => none
    | some (m1, r1) =>
      match matchWs1 r1 with
      | none => none
      | some (m2, r2) =>
        match matchWordsAt ws r2 with
        | none => none
        | some (m3, r3) => some (m1 ++ m2 ++ m3, r3)

/-- A `word1\s+word2...s?` pattern (case-insensitive). -/
structure WordPat where
  words : List String
  optS : Bool
deriving Repr, DecidableEq

/-- Match a `WordPat` at the head of `t` (the optional trailing `s` is taken
greedily, as in JavaScript). -/
def matchWordPatAt (p : WordPat) (t : List Char) : Option (List Char × List Char) :=
  match matchWordsAt p.words t with
  | none => none
  | some (m, r) =>
    if p.optS then
      match r with
      | c :: r' => if c.toLower = 's' then some (m ++ [c], r') else some (m, r)
      | [] => some (m, r)
    else some (m, r)

/-- Collect all non-overlapping matches of `p` left to right (JS
`str.match(/…/g)`), fuel-bounded by the input length. -/
def scanWordPatAux (p : WordPat) : Nat → List Char → List String
  | 0, _ => []
  | _ + 1, [] => []
  | fuel + 1, c :: cs =>
    match matchWordPatAt p (c :: cs) with
    | some (m, r) => String.mk m :: scanWordPatAux p fuel r
    | none => scanWordPatAux p fuel cs

/-- All matches of `p` in `s`, in order. -/
def scanWordPat (p : WordPat) (s : String) : List String :=
  scanWordPatAux p s.data.length s.data

/-- JavaScript `/pat/i.test(s)` for a word pattern. -/
def wordPatTest (p : WordPat) (s : String) : Bool :=
  !(scanWordPat p s).isEmpty

/-- The road-condition keyword regex
`/(lane\s+closure|full\s+closure|chain|construction|accident|incident|delay|traffic|road\s+closed|restricted|open|closed)/i`
used by `fetchStatusForSource` (fetch-status-on-demand.ts line 70). -/
def roadKeywordTest (s : String) : Bool :=
  wordPatTest { words := ["lane", "closure"], optS := false } s ||
  wordPatTest { words := ["full", "closure"], optS := false } s ||
  jsIncludes (jsToLower s) "chain" ||
  jsIncludes (jsToLower s) "construction" ||
  jsIncludes (jsToLower s) "accident" ||
  jsIncludes (jsToLower s) "incident" ||
  jsIncludes (jsToLower s) "delay" ||
  jsIncludes (jsToLower s) "traffic" ||
  wordPatTest { words := ["road", "closed"], optS := false } s ||
  jsIncludes (jsToLower s) "restricted" ||
  jsIncludes (jsToLower s) "open" ||
  jsIncludes (jsToLower s) "closed"

/-! ## Caltrans road-status client (src/unnamed/part_002) -/

/-- JavaScript `x || default` for an optional string (empty string is falsy). -/
def jsOrDefault (o : Option String) (d : String) : String :=
  match o with
  | some s => if s = "" then d else s
  | none => d

/-- `properties` of one feature of the Caltrans API response. -/
structure CaltransFeatureProps where
  route : Option String
  direction : Option String
  location : Option String
  description : Option String
  start_date : Option String
  end_date : Option String
  closure_type : Option String
deriving Repr, DecidableEq

/-- One feature of the Caltrans API response; `coordinates` is the optional
`geometry?.coordinates` pair `[lng, lat]`. -/
structure CaltransFeature where
  properties : CaltransFeatureProps
  coordinates : Option (Int × Int)
deriving Repr, DecidableEq

/-- `LaneClosure` record (src/unnamed/part_002 lines 13–24). -/
structure LaneClosure where
  id : String
  route : String
  direction : String
  location : String
  description : String
  startDate : String
  endDate : String
  closureType : String
  latitude : Option Int
  longitude : Option Int
deriving Repr, DecidableEq

/-- The per-feature transformation of `fetchLaneClosuresByBoundingBox`
(src/unnamed/part_002 lines 101–117). -/
def transformFeature (idx : Nat) (f : CaltransFeature) : LaneClosure :=
  { id := jsOrDefault f.properties.route "unknown" ++ "-" ++ toString idx
    route := jsOrDefault f.properties.route "Unknown"
    direction := jsOrDefault f.properties.direction ""
    location := jsOrDefault f.properties.location ""
    description := jsOrDefault f.properties.description ""
    startDate := jsOrDefault f.properties.start_date ""
    endDate := jsOrDefault f.properties.end_date ""
    closureType := jsOrDefault f.properties.closure_type ""
    latitude := f.coordinates.map (·.2)
    longitude := f.coordinates.map (·.1) }

/-- `fetchLaneClosuresByBoundingBox` (src/unnamed/part_002 lines 49–125): the
endpoints are tried in order and the first successful JSON response wins
(`endpointResponses` holds `none` for a failed or non-OK endpoint).  When no
endpoint succeeds — or anything inside throws — the function swallows the
failure and returns the empty list (lines 93–98 and 120–124), which is
indistinguishable from a successful zero-closure response. -/
def fetchLaneClosuresByBoundingBox
    (endpointResponses : List (Option (List CaltransFeature))) : List LaneClosure :=
  match (endpointResponses.filterMap id).head? with
  | none => []
  | some features => features.enum.map (fun p => transformFeature p.1 p.2)

/-- The currently-active filter of `generateRoadStatusSummary`
(src/unnamed/part_002 lines 142–153); `parseDate` abstracts JavaScript
`new Date(string).getTime()`, `none` standing for an invalid date, whose
comparisons are all false. -/
def closureActive (parseDate : String → Option Int) (nowMs : Int)
    (c : LaneClosure) : Bool :=
  if c.startDate ≠ "" ∧ c.endDate ≠ "" then
    match parseDate c.startDate, parseDate c.endDate with
    | some s, some e => nowMs ≥ s && nowMs ≤ e
    | _, _ => false
  else true

/-- Helper for `dedupKeepFirst`: drop elements already seen. -/
def dedupKeepFirstAux (seen : List String) : List String → List String
  | [] => []
  | x :: xs =>
    if seen.contains x then dedupKeepFirstAux seen xs
    else x :: dedupKeepFirstAux (x :: seen) xs

/-- JavaScript `[...new Set(xs)]`: deduplicate keeping first occurrences. -/
def dedupKeepFirst (l : List String) : List String :=
  dedupKeepFirstAux [] l

/-- `generateRoadStatusSummary` (src/unnamed/part_002 lines 130–200), returning
`(summary, statusCode)`. -/
def generateRoadStatusSummary (parseDate : String → Option Int) (nowMs : Int)
    (closures : List LaneClosure) : String × String :=
  if closures.length = 0 then
    ("No active lane closures reported in this area.", "open")
  else
    let activeClosures := closures.filter (closureActive parseDate nowMs)
    if activeClosures.length = 0 then
      ("No active lane closures reported in this area.", "open")
    else
      let fullClosures := activeClosures.filter (fun c =>
        jsIncludes (jsToLower c.closureType) "full" ||
        jsIncludes (jsToLower c.description) "closed" ||
        jsIncludes (jsToLower c.description) "closure")
      if fullClosures.length > 0 then
        let routes := dedupKeepFirst ((fullClosures.map (·.route)).filter (fun r => r ≠ ""))
        ("Road closures reported on " ++ joinComma routes ++ ". " ++
           toString fullClosures.length ++ " active closure(s). Check source for details.",
         "closed")
      else
        let restrictions := activeClosures.filter (fun c =>
          jsIncludes (jsToLower c.description) "chain" ||
          jsIncludes (jsToLower c.description) "restriction" ||
          jsIncludes (jsToLower c.description) "one lane")
        if restrictions.length > 0 then
          let routes := dedupKeepFirst ((restrictions.map (·.route)).filter (fun r => r ≠ ""))
          ("Road restrictions reported on " ++ joinComma routes ++ ". " ++
             toString restrictions.length ++ " active restriction(s). Check source for details.",
           if restrictions.any (fun c => jsIncludes (jsToLower c.description) "chain")
           then "chains_required" else "restricted")
        else
          let routes := dedupKeepFirst ((activeClosures.map (·.route)).filter (fun r => r ≠ ""))
          (toString activeClosures.length ++ " active lane closure(s) reported on " ++
             joinComma routes ++ ". Check source for details.",
           "restricted")

/-- Escape a string for JSON output (`JSON.stringify` string escaping for the
characters the sources can produce). -/
def jsonEscape (s : String) : String :=
  ⟨s.data.foldr (fun c acc =>
    if c = '\\' then '\\' :: '\\' :: acc
    else if c = '"' then '\\' :: '"' :: acc
    else if c = '\n' then '\\' :: 'n' :: acc
    else c :: acc) []⟩

/-- A JSON string literal. -/
def jsonStr (s : String) : String :=
  "\"" ++ jsonEscape s ++ "\""

/-- The fields of one serialized `LaneClosure`, in declaration order;
`undefined` coordinates are omitted, as `JSON.stringify` does. -/
def closureJsonFields (c : LaneClosure) : List String :=
  ["\"id\": " ++ jsonStr c.id,
   "\"route\": " ++ jsonStr c.route,
   "\"direction\": " ++ jsonStr c.direction,
   "\"location\": " ++ jsonStr c.location,
   "\"description\": " ++ jsonStr c.description,
   "\"startDate\": " ++ jsonStr c.startDate,
   "\"endDate\": " ++ jsonStr c.endDate,
   "\"closureType\": " ++ jsonStr c.closureType] ++
  (match c.latitude with
   | some v => ["\"latitude\": " ++ toString v]
   | none => []) ++
  (match c.longitude with
   | some v => ["\"longitude\": " ++ toString v]
   | none => [])

/-- `JSON.stringify(closures, null, 2)` (src/unnamed/part_002 lines 223 and
231): `"[]"` for the empty list, otherwise a two-space-indented array of
objects. -/
def stringifyClosures (cs : List LaneClosure) : String :=
  if cs.isEmpty then "[]"
  else
    "[\n" ++
    String.intercalate ",\n"
      (cs.map (fun c =>
        "  \x7b\n" ++
        String.intercalate ",\n" ((closureJsonFields c).map (fun f => "    " ++ f)) ++
        "\n  \x7d")) ++
    "\n]"

/-- The result record of `fetchRoadStatusForPeak` (src/unnamed/part_002 lines
210–214; the optional `rawJson` field carries no information beyond the
closures and is dropped). -/
structure RoadFetchResult where
  rawText : String
  statusSummary : String
  statusCode : String
deriving Repr, DecidableEq

/-- Environment for `fetchRoadStatusForPeak`: the Caltrans endpoint responses,
the date parser and clock, and — as an opaque oracle — the result the QuickMap
scraping fallback block (src/unnamed/part_002 lines 241–351) would produce. -/
structure RoadApiEnv where
  endpointResponses : List (Option (List CaltransFeature))
  parseDate : String → Option Int
  nowMs : Int
  quickMapFallback : RoadFetchResult

/-- The structured-API phase of `fetchRoadStatusForPeak` (src/unnamed/part_002
lines 217–235): `none` would mean the phase threw (the `catch (apiError)` at
line 236, which falls into the QuickMap scraping fallback).  Since
`fetchLaneClosuresByBoundingBox` catches every internal error and returns `[]`
instead of throwing, the phase always returns a result: a non-empty closure
list yields `generateRoadStatusSummary`'s answer, and an empty list — whether
a genuine zero-closure response or a swallowed API failure — yields the fixed
"No active lane closures" success answer. -/
def roadApiPhase (env : RoadApiEnv) : Option RoadFetchResult :=
  let closures := fetchLaneClosuresByBoundingBox env.endpointResponses
  if closures.length > 0 then
    let sc := generateRoadStatusSummary env.parseDate env.nowMs closures
    some { rawText := stringifyClosures closures
           statusSummary := sc.1
           statusCode := sc.2 }
  else
    some { rawText := stringifyClosures closures
           statusSummary := "No active lane closures reported in this area."
           statusCode := "open" }

/-- `fetchRoadStatusForPeak` (src/unnamed/part_002 lines 206–352).  The second
component counts how many times the QuickMap scraping fallback ran (0 when the
API phase short-circuits). -/
def fetchRoadStatusForPeak (env : RoadApiEnv) : RoadFetchResult × Nat :=
  match roadApiPhase env with
  | some r => (r, 0)
  | none => (env.quickMapFallback, 1)

/-! ## Firecrawl client `scrapeUrl` (src/src/lib/firecrawl-client.ts) -/

/-- The raw result of `firecrawl.scrapeUrl` before the client's own checks. -/
structure FirecrawlDoc where
  statusCode : Option Nat
  markdown : String
  html : String
  content : String
deriving Repr, DecidableEq

/-- A peak record as selected by `prisma.peak.findUnique` (coordinates and
name).  Coordinates are modelled as integers; only their JavaScript truthiness
(non-null and non-zero) matters to the orchestrator. -/
structure PeakRec where
  gpsLat : Option Int
  gpsLng : Option Int
  name : String
deriving Repr, DecidableEq

/-- Environment of one `fetchStatusForSource` invocation: the oracle results of
every external call it can make.  `Except.error m` models a rejected
promise/thrown error with message `m` (timeouts appear as error messages, as
the source's `Promise.race` turns them into).  `landInsertOk`/`roadInsertOk`
say whether `prisma.*StatusSnapshot.create` succeeds.
`detailedSummaryOracle` stands for `generateDetailedSummary` (modelled
separately for claim C4), whose output text is irrelevant to the claims about
this orchestrator. -/
structure FetchEnv where
  firecrawlConfigured : Bool
  firecrawlResult : Except String FirecrawlDoc
  peakLookup : Except String (Option PeakRec)
  roadApi : RoadApiEnv
  detailedSummaryOracle : String → String
  landInsertOk : Bool
  roadInsertOk : Bool

/-- `scrapeUrl` (firecrawl-client.ts lines 30–77): unconfigured client throws;
a 404/410 status throws; `rawText` is the first truthy of markdown, html,
content; a short page with not-found markers throws a "404 page" error; the
outer catch rethrows everything. -/
def scrapeUrl (url : String) (env : FetchEnv) : Except String String :=
  if !env.firecrawlConfigured then
    .error "Firecrawl API key not configured"
  else
    match env.firecrawlResult with
    | .error e => .error e
    | .ok doc =>
      if doc.statusCode = some 404 ∨ doc.statusCode = some 410 then
        .error ("Source URL returned " ++ toString (doc.statusCode.getD 0) ++ ": " ++ url)
      else
        let rawText := if doc.markdown ≠ "" then doc.markdown
                       else if doc.html ≠ "" then doc.html
                       else doc.content
        let lowerText := jsToLower rawText
        if (jsIncludes lowerText "404" || jsIncludes lowerText "page not found" ||
            jsIncludes lowerText "not found") && rawText.length < 500 then
          .error ("Source URL appears to be a 404 page: " ++ url)
        else
          .ok rawText

/-! ## Fetch orchestrator `fetchStatusForSource`
(src/src/lib/fetch-status-on-demand.ts lines 29–192) -/

/-- The two snapshot tables the orchestrator inserts into. -/
inductive SnapshotTable
  | land
  | road
deriving Repr, DecidableEq

/-- Modelled from the spec: the `Outcome` flag (`Success`, `Degraded`,
`Error`) of §3 is not a column of the code's snapshot tables; following §3/§7
we tag inserts created on the orchestrator's error-handling path as
`degraded` and all others as `success`.  `error` exists in the taxonomy but is
never produced. -/
inductive Outcome
  | success
  | degraded
  | error
deriving Repr, DecidableEq

/-- One successful `prisma.*StatusSnapshot.create` call (the snapshot row
fields that the claims are about). -/
structure SnapshotInsert where
  table : SnapshotTable
  rawText : String
  statusSummary : String
  statusCode : String
  outcome : Outcome
deriving Repr, DecidableEq

/-- Control-flow result of the body of `fetchStatusForSource` before its outer
`catch`: either a normal return or an uncaught-so-far exception, in both cases
carrying the inserts performed. -/
inductive FetchCtl
  | done (inserts : List SnapshotInsert)
  | threw (inserts : List SnapshotInsert) (msg : String)
deriving Repr, DecidableEq

/-- The inserts carried by a control-flow result. -/
def FetchCtl.inserts : FetchCtl → List SnapshotInsert
  | .done l => l
  | .threw l _ => l

/-- The 404 error summary (fetch-status-on-demand.ts line 127). -/
def errorSummary404 : String :=
  "Source URL appears to be invalid or returns a 404 error. Please update the source URL in the admin interface."

/-- The timeout error summary (line 129). -/
def errorSummaryTimeout : String :=
  "Data fetch timed out. Please check the source for current conditions."

/-- The generic fetch-failure summary (line 131). -/
def errorSummaryUnavailable : String :=
  "Unable to fetch data automatically. Please check the source for current conditions."

/-- The `hasMeaningfulData` check (fetch-status-on-demand.ts lines 64–67). -/
def hasMeaningfulDataCheck (summary : String) : Bool :=
  summary ≠ "" &&
  !(jsIncludes (jsToLower summary) "could not be automatically retrieved") &&
  !(jsIncludes (jsToLower summary) "unable to automatically fetch") &&
  summary.length > 20

/-- The conditions extracted from raw text by fetch-status-on-demand.ts lines
80–86 (`/lane\s+closure/i`, `/full\s+closure/i`, `/chain/i`,
`/construction/i`, `/accident|incident/i`). -/
def extractedConditions (rawText : String) : List String :=
  (if wordPatTest { words := ["lane", "closure"], optS := false } rawText
   then ["lane closures"] else []) ++
  (if wordPatTest { words := ["full", "closure"], optS := false } rawText
   then ["full closures"] else []) ++
  (if jsIncludes (jsToLower rawText) "chain" then ["chain requirements"] else []) ++
  (if jsIncludes (jsToLower rawText) "construction" then ["construction"] else []) ++
  (if jsIncludes (jsToLower rawText) "accident" || jsIncludes (jsToLower rawText) "incident"
   then ["incidents"] else [])

/-- The `finalSummary` computation of the Caltrans branch
(fetch-status-on-demand.ts lines 74–90). -/
def caltransFinalSummary (roadStatus : RoadFetchResult)
    (hasMeaningfulData hasRoadKeywords : Bool) : String :=
  if roadStatus.rawText = "[]" ∧ roadStatus.statusSummary ≠ "" then
    roadStatus.statusSummary
  else if !hasMeaningfulData && hasRoadKeywords then
    let conditions := extractedConditions roadStatus.rawText
    if conditions.length > 0 then
      "Road conditions detected: " ++ joinComma conditions ++
        ". Check QuickMap for specific locations and details."
    else roadStatus.statusSummary
  else roadStatus.statusSummary

/-- The Caltrans/QuickMap URL test (fetch-status-on-demand.ts lines 39–43). -/
def isCaltransUrl (url : String) : Bool :=
  jsIncludes url "caltrans" || jsIncludes url "dot.ca.gov" ||
  jsIncludes url "quickmap" || jsIncludes url "alpha.ca.gov" ||
  jsIncludes url "roads.dot.ca.gov"

/-- JavaScript truthiness of an optional number (`peak?.gpsLat && …`). -/
def numTruthy : Option Int → Bool
  | none => false
  | some v => v ≠ 0

/-- The content-scrape phase of `fetchStatusForSource` (fetch-status-on-demand
lines 112–187): on scrape failure an error snapshot is inserted for
`LAND_MANAGER`/`Land Manager`/`ROAD_STATUS` source types (any other type —
e.g. the legacy `'Road Status'` spelling accepted at line 37 — inserts
nothing); on success the parsed snapshot is inserted, with `rawText` truncated
to 10,000 characters.  A failing `create` throws out of the function body
(becoming `FetchCtl.threw`, to be swallowed by the outer catch). -/
def scrapePhase (sourceType url : String) (env : FetchEnv)
    (acc : List SnapshotInsert) : FetchCtl :=
  match scrapeUrl url env with
  | .error scrapeError =>
    let errorMessage := scrapeError
    let is404 := jsIncludes errorMessage "404" || jsIncludes errorMessage "not found"
    let isTimeout := jsIncludes errorMessage "timeout" ||
      jsIncludes errorMessage "Firecrawl request timeout"
    let errorSummary := if is404 then errorSummary404
                        else if isTimeout then errorSummaryTimeout
                        else errorSummaryUnavailable
    if sourceType = "LAND_MANAGER" ∨ sourceType = "Land Manager" then
      if env.landInsertOk then
        .done (acc ++ [{ table := .land, rawText := "Error: " ++ errorMessage,
                         statusSummary := errorSummary, statusCode := "unknown",
                         outcome := .degraded }])
      else .threw acc "landStatusSnapshot.create failed"
    else if sourceType = "ROAD_STATUS" then
      if env.roadInsertOk then
        .done (acc ++ [{ table := .road, rawText := "Error: " ++ errorMessage,
                         statusSummary := errorSummary, statusCode := "unknown",
                         outcome := .degraded }])
      else .threw acc "roadStatusSnapshot.create failed"
    else .done acc
  | .ok rawText =>
    let parsedStatus := inferStatusFromText rawText
    let detailedSummary := env.detailedSummaryOracle rawText
    if sourceType = "LAND_MANAGER" ∨ sourceType = "Land Manager" then
      if env.landInsertOk then
        .done (acc ++ [{ table := .land, rawText := jsSubstringTo rawText 10000,
                         statusSummary := detailedSummary,
                         statusCode := parsedStatus.statusCode, outcome := .success }])
      else .threw acc "landStatusSnapshot.create failed"
    else
      if env.roadInsertOk then
        .done (acc ++ [{ table := .road, rawText := jsSubstringTo rawText 10000,
                         statusSummary := detailedSummary,
                         statusCode := parsedStatus.statusCode, outcome := .success }])
      else .threw acc "roadStatusSnapshot.create failed"

/-- The body of `fetchStatusForSource` (fetch-status-on-demand.ts lines 35–187)
before its outer catch.  Road-status sources with a Caltrans-style URL and a
peak with truthy coordinates first try the Caltrans API path; a successful
insert there returns early, while a missing peak, falsy coordinates,
non-meaningful API data, a throwing `fetchRoadStatusForPeak`, or a failing
Caltrans-path insert (all caught at line 104) fall through to the content
scrape.  A throwing `prisma.peak.findUnique` escapes to the outer catch with
no insert performed. -/
def fetchStatusRun (sourceType url : String) (env : FetchEnv) : FetchCtl :=
  if sourceType = "ROAD_STATUS" ∨ sourceType = "Road Status" then
    if isCaltransUrl url then
      match env.peakLookup with
      | .error e => .threw [] e
      | .ok peakOpt =>
        match peakOpt with
        | some peak =>
          if numTruthy peak.gpsLat && numTruthy peak.gpsLng then
            let roadStatus := (fetchRoadStatusForPeak env.roadApi).1
            let hasMeaningfulData := hasMeaningfulDataCheck roadStatus.statusSummary
            let hasRoadKeywords := roadKeywordTest roadStatus.rawText
            if hasMeaningfulData || hasRoadKeywords || roadStatus.rawText = "[]" then
              if env.roadInsertOk then
                .done [{ table := .road,
                         rawText := jsSubstringTo roadStatus.rawText 10000,
                         statusSummary :=
                           caltransFinalSummary roadStatus hasMeaningfulData hasRoadKeywords,
                         statusCode := roadStatus.statusCode, outcome := .success }]
              else scrapePhase sourceType url env []
            else scrapePhase sourceType url env []
          else scrapePhase sourceType url env []
        | none => scrapePhase sourceType url env []
    else scrapePhase sourceType url env []
  else scrapePhase sourceType url env []

/-- `fetchStatusForSource` as its caller sees it: the outer catch
(fetch-status-on-demand.ts lines 188–191) swallows every exception, so the
call never throws and its effect is exactly the list of performed inserts. -/
def fetchStatusForSource (sourceType url : String) (env : FetchEnv) :
    List SnapshotInsert :=
  (fetchStatusRun sourceType url env).inserts

/-! ## Lemmas about the string machinery -/

/-- A prefix of `t` is a prefix of `t ++ u`. -/
theorem isPrefixChars_append (w t u : List Char) (h : isPrefixChars w t = true) :
    isPrefixChars w (t ++ u) = true := by
  induction w generalizing t with
  | nil => simp [isPrefixChars]
  | cons a w ih =>
    cases t with
    | nil => simp [isPrefixChars] at h
    | cons b t =>
      by_cases hab : a = b
      · simp [isPrefixChars, hab] at h ⊢
        exact ih t h
      · simp [isPrefixChars, hab] at h

/-- A substring of `l` is a substring of `l ++ u`. -/
theorem isInfixChars_append_right (w l u : List Char) (h : isInfixChars w l = true) :
    isInfixChars w (l ++ u) = true := by
  induction l with
  | nil =>
    cases w with
    | nil => cases u <;> simp [isInfixChars, isPrefixChars]
    | cons a w => simp [isInfixChars, isPrefixChars] at h
  | cons c cs ih =>
    simp only [List.cons_append, isInfixChars, Bool.or_eq_true] at h ⊢
    rcases h with h | h
    · exact Or.inl (by
        have := isPrefixChars_append w (c :: cs) u h
        simpa using this)
    · exact Or.inr (ih h)

/-- JS `includes` is preserved by appending on the right. -/
theorem jsIncludes_append_left (a b sub : String) (h : jsIncludes a sub = true) :
    jsIncludes (a ++ b) sub = true := by
  unfold jsIncludes at *
  have hd : (a ++ b).data = a.data ++ b.data := rfl
  rw [hd]
  exact isInfixChars_append_right _ _ _ h

/-- `substring(0, n)` has length at most `n`. -/
theorem jsSubstringTo_length_le (s : String) (n : Nat) :
    (jsSubstringTo s n).length ≤ n := by
  simp only [jsSubstringTo, String.length, List.length_take]
  omega

/-! ## Claims C1, C6, C7, C9 -/

/-- The scrape phase performs exactly one insert (never an `error` outcome)
whenever the source type is one of the canonical enum values and the insert
itself succeeds. -/
theorem scrapePhase_single_insert (sourceType url : String) (env : FetchEnv)
    (hst : sourceType = "LAND_MANAGER" ∨ sourceType = "ROAD_STATUS")
    (hl : env.landInsertOk = true) (hr : env.roadInsertOk = true) :
    ((scrapePhase sourceType url env []).inserts).length = 1 ∧
    ∀ i ∈ (scrapePhase sourceType url env []).inserts, i.outcome ≠ Outcome.error := by
  rcases hst with h | h <;> subst h <;> unfold scrapePhase <;>
    cases hscrape : scrapeUrl url env <;>
      simp [hl, hr, FetchCtl.inserts]

/-- C1 amended: `fetchStatusForSource` never throws to its caller (the outer
catch turns every escaped exception into a plain return of the inserts
performed so far), and — provided the database cooperates (`findUnique` does
not throw and the snapshot `create`s succeed) and the source type is one of
the canonical `LAND_MANAGER`/`ROAD_STATUS` values — every invocation performs
exactly one snapshot insert, always with a `Success` or `Degraded` outcome,
never `Error`.  (When a `create` itself fails, or for the legacy
`'Road Status'` source-type spelling on the scrape-error path, the call still
does not throw but can perform zero inserts; see the counterexample.) -/
theorem fetchStatus_one_insert_per_invocation :
    (∀ (sourceType url : String) (env : FetchEnv),
      fetchStatusForSource sourceType url env = (fetchStatusRun sourceType url env).inserts) ∧
    (∀ (sourceType url : String) (env : FetchEnv),
      (sourceType = "LAND_MANAGER" ∨ sourceType = "ROAD_STATUS") →
      (∃ p, env.peakLookup = Except.ok p) →
      env.landInsertOk = true → env.roadInsertOk = true →
      (fetchStatusForSource sourceType url env).length = 1 ∧
      ∀ i ∈ fetchStatusForSource sourceType url env, i.outcome ≠ Outcome.error) := by
  refine ⟨fun _ _ _ => rfl, ?_⟩
  intro sourceType url env hst hpk hl hr
  obtain ⟨p, hp⟩ := hpk
  have hland := scrapePhase_single_insert "LAND_MANAGER" url env (Or.inl rfl) hl hr
  have hroad := scrapePhase_single_insert "ROAD_STATUS" url env (Or.inr rfl) hl hr
  simp only [fetchStatusForSource]
  rcases hst with h | h <;> subst h
  · unfold fetchStatusRun
    simpa using hland
  · unfold fetchStatusRun
    simp only [String.reduceEq, or_false, if_true, reduceIte]
    cases hc : isCaltransUrl url with
    | false => simpa [hc] using hroad
    | true =>
      simp only [hc, if_true, reduceIte, hp]
      cases p with
      | none => simpa using hroad
      | some peak =>
        cases hxy : (numTruthy peak.gpsLat && numTruthy peak.gpsLng) with
        | false => simpa [hxy] using hroad
        | true =>
          simp only [hxy, if_true, reduceIte]
          cases hcond : (hasMeaningfulDataCheck (fetchRoadStatusForPeak env.roadApi).1.statusSummary ||
              roadKeywordTest (fetchRoadStatusForPeak env.roadApi).1.rawText ||
              decide ((fetchRoadStatusForPeak env.roadApi).1.rawText = "[]")) with
          | false => simpa [hcond] using hroad
          | true => simp [hcond, hr, FetchCtl.inserts]

/-- A Caltrans environment whose fields are never consulted on the paths the
concrete theorems below exercise. -/
def dummyRoadApi : RoadApiEnv :=
  { endpointResponses := []
    parseDate := fun _ => none
    nowMs := 0
    quickMapFallback := { rawText := "", statusSummary := "", statusCode := "unknown" } }

/-- Concrete environment for the C1 witness: a configured, successful content
fetch for a land-manager source with a working database. -/
def envLandOk : FetchEnv :=
  { firecrawlConfigured := true
    firecrawlResult := .ok
      { statusCode := none, markdown := "Trails are accessible today", html := "", content := "" }
    peakLookup := .ok none
    roadApi := dummyRoadApi
    detailedSummaryOracle := fun _ => "Trails are accessible today."
    landInsertOk := true
    roadInsertOk := true }

/-- Witness for C1 (amended), at a concrete land-manager invocation. -/
theorem fetchStatus_one_insert_per_invocation_witness :
    (fetchStatusForSource "LAND_MANAGER" "https://forest.example/alerts" envLandOk).length = 1 ∧
    ∀ i ∈ fetchStatusForSource "LAND_MANAGER" "https://forest.example/alerts" envLandOk,
      i.outcome ≠ Outcome.error :=
  fetchStatus_one_insert_per_invocation.2 "LAND_MANAGER" "https://forest.example/alerts"
    envLandOk (Or.inl rfl) ⟨none, rfl⟩ rfl rfl

/-- Concrete environment for the C1 counterexample: the content fetch fails
(the Firecrawl client is unconfigured) and the road snapshot insert fails. -/
def envInsertFails : FetchEnv :=
  { firecrawlConfigured := false
    firecrawlResult := .error "unused"
    peakLookup := .ok none
    roadApi := dummyRoadApi
    detailedSummaryOracle := fun _ => ""
    landInsertOk := true
    roadInsertOk := false }

/-- Counterexample to C1 as stated: when the content fetch fails and the
snapshot `create` then also fails (a persistence failure), the invocation
throws nothing to its caller but performs zero inserts — so "every failure
path, including persistence failure, terminates in one persisted snapshot,
never zero inserts" is false on the code. -/
theorem fetchStatus_zero_inserts_on_persistence_failure :
    fetchStatusForSource "ROAD_STATUS" "https://example.com/highway" envInsertFails = [] := by
  decide

/-- C6: only the structured-incident API's answer is ever consulted when it
"responds": because `fetchLaneClosuresByBoundingBox` swallows every API
failure into an empty list, `fetchRoadStatusForPeak` cannot distinguish a
failed API call from a legitimate zero-incident response — with both
endpoints failed it short-circuits with the fixed Success/open
"No active lane closures" answer and never runs the QuickMap scraping
fallback (fallback-run count 0), for every possible fallback oracle, date
parser and clock. -/
theorem fetchRoadStatusForPeak_api_failure_short_circuits :
    ∀ (pd : String → Option Int) (now : Int) (fb : RoadFetchResult),
      fetchRoadStatusForPeak
        { endpointResponses := [none, none], parseDate := pd, nowMs := now,
          quickMapFallback := fb } =
      ({ rawText := "[]"
         statusSummary := "No active lane closures reported in this area."
         statusCode := "open" }, 0) := by
  intro pd now fb
  rfl

/-- C7: a content fetch whose page is under 500 characters and contains "page
not found" makes `scrapeUrl` throw a "404 page" error, and the orchestrator
persists exactly one Degraded snapshot with status code `unknown` whose
summary is the fixed message that the source URL appears invalid / returns a
404 and should be updated. -/
theorem notFound_page_yields_degraded_unknown_snapshot :
    ∀ (url : String) (env : FetchEnv) (page : String),
      env.firecrawlConfigured = true →
      env.firecrawlResult = .ok
        { statusCode := none, markdown := page, html := "", content := "" } →
      page.length < 500 →
      jsIncludes (jsToLower page) "page not found" = true →
      env.landInsertOk = true →
      fetchStatusForSource "LAND_MANAGER" url env =
        [{ table := .land
           rawText := "Error: " ++ ("Source URL appears to be a 404 page: " ++ url)
           statusSummary := errorSummary404
           statusCode := "unknown"
           outcome := .degraded }] := by
  intro url env page hconf hres hlen hinc hland
  by_cases hpage : page = ""
  · rw [hpage] at hinc
    exact absurd hinc (by decide)
  · have hscrape : scrapeUrl url env =
        .error ("Source URL appears to be a 404 page: " ++ url) := by
      unfold scrapeUrl
      rw [hres]
      simp [hconf, hpage, hinc, hlen]
    have h404 : jsIncludes ("Source URL appears to be a 404 page: " ++ url) "404" = true :=
      jsIncludes_append_left "Source URL appears to be a 404 page: " url "404" (by decide)
    simp only [fetchStatusForSource]
    unfold fetchStatusRun
    simp only [String.reduceEq, or_self, reduceIte, if_false]
    unfold scrapePhase
    rw [hscrape]
    simp [h404, hland, FetchCtl.inserts]

/-- Concrete environment for the C7 witness: the fetched page is a short
404-style page. -/
def env404 : FetchEnv :=
  { firecrawlConfigured := true
    firecrawlResult := .ok
      { statusCode := none, markdown := "404 Page Not Found", html := "", content := "" }
    peakLookup := .ok none
    roadApi := dummyRoadApi
    detailedSummaryOracle := fun _ => ""
    landInsertOk := true
    roadInsertOk := true }

/-- Witness for C7 at a concrete 18-character "404 Page Not Found" page. -/
theorem notFound_page_yields_degraded_unknown_snapshot_witness :
    fetchStatusForSource "LAND_MANAGER" "https://example.org/trail" env404 =
      [{ table := .land
         rawText := "Error: " ++
           ("Source URL appears to be a 404 page: " ++ "https://example.org/trail")
         statusSummary := errorSummary404
         statusCode := "unknown"
         outcome := .degraded }] :=
  notFound_page_yields_degraded_unknown_snapshot "https://example.org/trail" env404
    "404 Page Not Found" rfl rfl (by decide) (by decide) rfl

/-- Every insert the scrape phase performs on top of bounded accumulated
inserts has `rawText` of at most 10,000 characters, provided the content fetch
succeeded (the success paths truncate with `substring(0, 10000)`). -/
theorem scrapePhase_rawText_bounded (sourceType url : String) (env : FetchEnv)
    (acc : List SnapshotInsert) (raw : String)
    (hok : scrapeUrl url env = .ok raw)
    (hacc : ∀ i ∈ acc, i.rawText.length ≤ 10000) :
    ∀ i ∈ (scrapePhase sourceType url env acc).inserts, i.rawText.length ≤ 10000 := by
  unfold scrapePhase
  rw [hok]
  dsimp only
  split
  · split
    · simp only [FetchCtl.inserts]
      intro i hi
      rcases List.mem_append.mp hi with h | h
      · exact hacc i h
      · rcases List.mem_singleton.mp h with rfl
        exact jsSubstringTo_length_le _ _
    · exact hacc
  · split
    · simp only [FetchCtl.inserts]
      intro i hi
      rcases List.mem_append.mp hi with h | h
      · exact hacc i h
      · rcases List.mem_singleton.mp h with rfl
        exact jsSubstringTo_length_le _ _
    · exact hacc

/-- C9 amended: whenever the content fetch succeeds, every snapshot persisted
by `fetchStatusForSource` stores a raw payload of at most 10,000 characters
(both the Caltrans path and the scrape path truncate with
`substring(0, 10000)`).  The degraded error path instead stores
`"Error: " + message` untruncated; see the counterexample. -/
theorem snapshot_rawText_bounded_on_success :
    ∀ (sourceType url : String) (env : FetchEnv) (raw : String),
      scrapeUrl url env = .ok raw →
      ∀ i ∈ fetchStatusForSource sourceType url env, i.rawText.length ≤ 10000 := by
  intro sourceType url env raw hok
  have hsp : ∀ i ∈ (scrapePhase sourceType url env []).inserts, i.rawText.length ≤ 10000 :=
    scrapePhase_rawText_bounded sourceType url env [] raw hok (by simp)
  simp only [fetchStatusForSource]
  unfold fetchStatusRun
  dsimp only
  split
  · split
    · split
      · simp [FetchCtl.inserts]
      · split
        · split
          · split
            · split
              · simp only [FetchCtl.inserts]
                intro i hi
                rcases List.mem_singleton.mp hi with rfl
                exact jsSubstringTo_length_le _ _
              · exact hsp
            · exact hsp
          · exact hsp
        · exact hsp
    · exact hsp
  · exact hsp

/-- Witness for C9 (amended), at the concrete successful land fetch. -/
theorem snapshot_rawText_bounded_on_success_witness :
    scrapeUrl "https://forest.example/alerts" envLandOk = .ok "Trails are accessible today" ∧
    ∀ i ∈ fetchStatusForSource "LAND_MANAGER" "https://forest.example/alerts" envLandOk,
      i.rawText.length ≤ 10000 :=
  ⟨rfl,
   snapshot_rawText_bounded_on_success "LAND_MANAGER" "https://forest.example/alerts"
     envLandOk "Trails are accessible today" rfl⟩

/-- No pattern starting with a character other than `a` occurs in a repeated
`a`-block. -/
theorem isInfixChars_cons_replicate (c : Char) (w : List Char) (a : Char)
    (h : ¬ c = a) (n : Nat) :
    isInfixChars (c :: w) (List.replicate n a) = false := by
  induction n with
  | zero => simp [isInfixChars, isPrefixChars]
  | succ n ih => simp [List.replicate_succ, isInfixChars, isPrefixChars, h, ih]

/-- A 10,001-character error message (e.g. a very long source URL inside a
Firecrawl error message). -/
def longErrorMessage : String :=
  ⟨List.replicate 10001 'a'⟩

/-- Environment for the C9 counterexample: the content fetch fails with the
long message and the error snapshot insert succeeds. -/
def envLongError : FetchEnv :=
  { firecrawlConfigured := true
    firecrawlResult := .error longErrorMessage
    peakLookup := .ok none
    roadApi := dummyRoadApi
    detailedSummaryOracle := fun _ => ""
    landInsertOk := true
    roadInsertOk := true }

/-- Counterexample to C9 as stated: on the degraded error path the persisted
snapshot stores `"Error: " + message` without truncation, here 10,008
characters — more than the claimed 10,000-character bound. -/
theorem snapshot_rawText_unbounded_on_error_path :
    (fetchStatusForSource "LAND_MANAGER" "https://example.org/x" envLongError).map
        (fun i => i.rawText.length) = [10008] ∧
    10000 < 10008 := by
  have h404 : jsIncludes longErrorMessage "404" = false :=
    isInfixChars_cons_replicate '4' ['0', '4'] 'a' (by decide) 10001
  have hnf : jsIncludes longErrorMessage "not found" = false :=
    isInfixChars_cons_replicate 'n' "ot found".data 'a' (by decide) 10001
  have hto : jsIncludes longErrorMessage "timeout" = false :=
    isInfixChars_cons_replicate 't' "imeout".data 'a' (by decide) 10001
  have hfc : jsIncludes longErrorMessage "Firecrawl request timeout" = false :=
    isInfixChars_cons_replicate 'F' "irecrawl request timeout".data 'a' (by decide) 10001
  have hlen : ("Error: " ++ longErrorMessage).length = 10008 := by
    have hd : ("Error: " ++ longErrorMessage).data =
        ("Error: ").data ++ longErrorMessage.data := rfl
    have hrep : longErrorMessage.data.length = 10001 := by
      show (List.replicate 10001 'a').length = 10001
      rw [List.length_replicate]
    show ("Error: " ++ longErrorMessage).data.length = 10008
    rw [hd, List.length_append, hrep]
    rfl
  refine ⟨?_, by omega⟩
  have hscrape : scrapeUrl "https://example.org/x" envLongError = .error longErrorMessage := rfl
  simp only [fetchStatusForSource]
  unfold fetchStatusRun
  simp only [String.reduceEq, or_self, reduceIte, if_false]
  unfold scrapePhase
  rw [hscrape]
  dsimp only
  rw [h404, hnf, hto, hfc]
  show [("Error: " ++ longErrorMessage).length] = [10008]
  rw [hlen]

/-! ## Claim C4: the QuickMap pre-pass of `generateDetailedSummary`
(src/unnamed/part_003 lines 265–331) -/

/-- The `quickMapPatterns` regex list (part_003 lines 273–285), as word
patterns: `/Lane\s+Closures?/gi`, `/Full\s+Closure/gi`, `/Chain\s+Control/gi`,
`/Chains\s+Required/gi`, `/Road\s+Closed/gi`, `/Construction/gi`,
`/Accident/gi`, `/Incident/gi`, `/Delay/gi`, `/Restricted/gi`. -/
def quickMapPatterns : List WordPat :=
  [{ words := ["lane", "closure"], optS := true },
   { words := ["full", "closure"], optS := false },
   { words := ["chain", "control"], optS := false },
   { words := ["chains", "required"], optS := false },
   { words := ["road", "closed"], optS := false },
   { words := ["construction"], optS := false },
   { words := ["accident"], optS := false },
   { words := ["incident"], optS := false },
   { words := ["delay"], optS := false },
   { words := ["restricted"], optS := false }]

/-- `ind.replace(/[!*]/g, '')` (part_003 line 297). -/
def stripBangStar (s : String) : String :=
  ⟨s.data.filter (fun c => ¬ (c = '!' ∨ c = '*'))⟩

/-- The initial early-return portion of `generateDetailedSummary` (part_003
lines 265–331): the empty-input return and the QuickMap indicator pre-pass.
`some s` means `generateDetailedSummary` returns `s` at lines 267 or 329 —
before any truncation and for every configured `maxLength`, since this path
never truncates; `none` means control falls through into the general pipeline
(lines 333 onwards, not needed for this claim). -/
def generateDetailedSummaryQuickMapPath (rawText : String) : Option String :=
  if rawText = "" ∨ jsTrim rawText = "" then
    some "No content available."
  else
    let quickMapIndicators := (quickMapPatterns.map (fun p => scanWordPat p rawText)).flatten
    if quickMapIndicators.length > 0 then
      let cleanIndicators :=
        dedupKeepFirst
          (((quickMapIndicators.map (fun ind => jsTrim (stripBangStar ind))).filter
            (fun ind => ind.length > 0)))
      if cleanIndicators.length > 0 then
        let closures := cleanIndicators.filter (fun ind =>
          jsIncludes (jsToLower ind) "closure" || jsIncludes (jsToLower ind) "closed")
        let restrictions := cleanIndicators.filter (fun ind =>
          jsIncludes (jsToLower ind) "chain" || jsIncludes (jsToLower ind) "restricted")
        let delays := cleanIndicators.filter (fun ind =>
          jsIncludes (jsToLower ind) "construction" || jsIncludes (jsToLower ind) "accident" ||
          jsIncludes (jsToLower ind) "incident" || jsIncludes (jsToLower ind) "delay")
        let s1 := if closures.length > 0 then
            "Road closures detected: " ++ joinComma closures ++ ". " else ""
        let s2 := if restrictions.length > 0 then
            s1 ++ "Road restrictions: " ++ joinComma restrictions ++ ". " else s1
        let s3 := if delays.length > 0 then
            s2 ++ "Road conditions may cause delays: " ++ joinComma delays ++ ". " else s2
        let s4 := if s3 = "" then
            "Road conditions detected: " ++ joinComma cleanIndicators ++ ". " else s3
        some (s4 ++ "Check QuickMap for specific locations and details.")
      else none
    else none

/-- A raw page holding 32 distinct case variants of the word "delay"
(QuickMap's `/Delay/gi` matches each occurrence with its original casing, and
the dedup step keeps all 32 as distinct indicators). -/
def c4Input : String :=
  String.intercalate " "
    ["delay", "Delay", "dElay", "DElay", "deLay", "DeLay", "dELay", "DELay",
     "delAy", "DelAy", "dElAy", "DElAy", "deLAy", "DeLAy", "dELAy", "DELAy",
     "delaY", "DelaY", "dElaY", "DElaY", "deLaY", "DeLaY", "dELaY", "DELaY",
     "delAY", "DelAY", "dElAY", "DElAY", "deLAY", "DeLAY", "dELAY", "DELAY"]

set_option maxRecDepth 16384 in
/-- C4 failing input: the QuickMap pre-pass fires on `c4Input` and returns its
summary with no truncation at all — 308 characters, exceeding the configured
maximum of 250 that the claim asserts for every input. -/
theorem quickMapPath_exceeds_max :
    ((generateDetailedSummaryQuickMapPath c4Input).getD "").length = 308 ∧
    250 < 308 := by
  constructor
  · decide
  · decide

/-! ## Claim C8: `cleanText` (src/unnamed/part_003 lines 94–180)

`cleanText` is a pipeline of JavaScript `String.replace` calls with `/g`
regexes.  Each replace pass is modelled by `replaceScan`: scan left to right;
at a match emit the replacement and continue after the match, otherwise emit
the character and advance one.  A line-start flag models the `m`-flag `^`
anchor (start of input or just after a newline).  Every pattern of the source
either starts with a literal or with a character class disjoint from what

follows it, so greedy matching needs no backtracking except in the `.*`
boilerplate patterns, which get dedicated greedy/lazy matchers below. -/

/-- One `String.replace(/…/g, …)` pass.  `step` receives the line-start flag
and the current suffix; on a match it returns the replacement, the line-start
flag after the match (true iff the matched source text ends in a newline) and
the remaining suffix.  Fuel (the input length suffices, as every match
consumes at least one character) makes the recursion structural. -/
def replaceScan (step : Bool → List Char → Option (List Char × Bool × List Char)) :
    Nat → Bool → List Char → List Char
  | 0, _, l => l
  | _ + 1, _, [] => []
  | fuel + 1, ls, c :: cs =>
    match step ls (c :: cs) with
    | some (rep, ls2, rest) => rep ++ replaceScan step fuel ls2 rest
    | none => c :: replaceScan step fuel (c = '\n') cs

/-- Run one replace pass over a whole string (position 0 is a line start). -/
def runStep (step : Bool → List Char → Option (List Char × Bool × List Char))
    (l : List Char) : List Char :=
  replaceScan step l.length true l

/-- The backtick character (code 96). -/
def backtickChar : Char := Char.ofNat 96

/-- `!\[([^\]]*)\]\([^\)]*\)` → `' '` (markdown image with target). -/
def stepImgLink (_ls : Bool) (t : List Char) :
    Option (List Char × Bool × List Char) :=
  match t with
  | '!' :: '[' :: r1 =>
    match r1.dropWhile (fun c => ¬ c = ']') with
    | ']' :: '(' :: r2 =>
      match r2.dropWhile (fun c => ¬ c = ')') with
      | ')' :: r3 => some ([' '], false, r3)
      | _ => none
    | _ => none
  | _ => none

/-- `!\[([^\]]*)\]` → `' '` (markdown image without target). -/
def stepImgRef (_ls : Bool) (t : List Char) :
    Option (List Char × Bool × List Char) :=
  match t with
  | '!' :: '[' :: r1 =>
    match r1.dropWhile (fun c => ¬ c = ']') with
    | ']' :: r2 => some ([' '], false, r2)
    | _ => none
  | _ => none

/-- `\[([^\]]+)\]\([^\)]+\)` → `'$1'` (markdown link, keeping the text). -/
def stepLink (_ls : Bool) (t : List Char) :
    Option (List Char × Bool × List Char) :=
  match t with
  | '[' :: r1 =>
    let txt := r1.takeWhile (fun c => ¬ c = ']')
    if txt.isEmpty then none
    else
      match r1.dropWhile (fun c => ¬ c = ']') with
      | ']' :: '(' :: r2 =>
        if (r2.takeWhile (fun c => ¬ c = ')')).isEmpty then none
        else
          match r2.dropWhile (fun c => ¬ c = ')') with
          | ')' :: r3 => some (txt, false, r3)
          | _ => none
      | _ => none
  | _ => none

/-- `^#{1,6}\s+` (m) → `' '` (markdown headers). -/
def stepHeader (ls : Bool) (t : List Char) :
    Option (List Char × Bool × List Char) :=
  if ¬ ls then none
  else
    match t with
    | '#' :: _ =>
      let hashes := t.takeWhile (fun c => c = '#')
      let rest := t.dropWhile (fun c => c = '#')
      if hashes.length ≤ 6 then
        match rest with
        | c :: _ =>
          if jsWs c then
            some ([' '], (rest.takeWhile jsWs).getLast? = some '\n', rest.dropWhile jsWs)
          else none
        | [] => none
      else none
    | _ => none

/-- `\*\*([^\*]+)\*\*` → `'$1'`. -/
def stepBold (_ls : Bool) (t : List Char) :
    Option (List Char × Bool × List Char) :=
  match t with
  | '*' :: '*' :: r1 =>
    let txt := r1.takeWhile (fun c => ¬ c = '*')
    if txt.isEmpty then none
    else
      match r1.dropWhile (fun c => ¬ c = '*') with
      | '*' :: '*' :: r2 => some (txt, false, r2)
      | _ => none
  | _ => none

/-- `\*([^\*]+)\*` → `'$1'`. -/
def stepItalic (_ls : Bool) (t : List Char) :
    Option (List Char × Bool × List Char) :=
  match t with
  | '*' :: r1 =>
    let txt := r1.takeWhile (fun c => ¬ c = '*')
    if txt.isEmpty then none
    else
      match r1.dropWhile (fun c => ¬ c = '*') with
      | '*' :: r2 => some (txt, false, r2)
      | _ => none
  | _ => none

/-- `__([^_]+)__` → `'$1'`. -/
def stepBoldU (_ls : Bool) (t : List Char) :
    Option (List Char × Bool × List Char) :=
  match t with
  | '_' :: '_' :: r1 =>
    let txt := r1.takeWhile (fun c => ¬ c = '_')
    if txt.isEmpty then none
    else
      match r1.dropWhile (fun c => ¬ c = '_') with
      | '_' :: '_' :: r2 => some (txt, false, r2)
      | _ => none
  | _ => none

/-- `_([^_]+)_` → `'$1'`. -/
def stepItalicU (_ls : Bool) (t : List Char) :
    Option (List Char × Bool × List Char) :=
  match t with
  | '_' :: r1 =>
    let txt := r1.takeWhile (fun c => ¬ c = '_')
    if txt.isEmpty then none
    else
      match r1.dropWhile (fun c => ¬ c = '_') with
      | '_' :: r2 => some (txt, false, r2)
      | _ => none
  | _ => none

/-- Find the closing triple backtick (lazy `[\s\S]*?`); returns the suffix
after it. -/
def findFence : List Char → Option (List Char)
  | [] => none
  | c :: r =>
    if c = backtickChar ∧ r.take 2 = [backtickChar, backtickChar] then some (r.drop 2)
    else findFence r

/-- Code fences → `' '`. -/
def stepCodeFence (_ls : Bool) (t : List Char) :
    Option (List Char × Bool × List Char) :=
  match t with
  | c1 :: c2 :: c3 :: r =>
    if c1 = backtickChar ∧ c2 = backtickChar ∧ c3 = backtickChar then
      match findFence r with
      | some r2 => some ([' '], false, r2)
      | none => none
    else none
  | _ => none

/-- Inline code spans → `' '`. -/
def stepCodeInline (_ls : Bool) (t : List Char) :
    Option (List Char × Bool × List Char) :=
  match t with
  | c :: r =>
    if c = backtickChar then
      let txt := r.takeWhile (fun ch => ¬ ch = backtickChar)
      if txt.isEmpty then none
      else
        match r.dropWhile (fun ch => ¬ ch = backtickChar) with
        | _ :: r2 => some ([' '], false, r2)
        | [] => none
    else none
  | [] => none

/-- `^[\s]*[-*+]\s+` (m) → `' '` (bullet list markers). -/
def stepBullet (ls : Bool) (t : List Char) :
    Option (List Char × Bool × List Char) :=
  if ¬ ls then none
  else
    match t.dropWhile jsWs with
    | c :: r =>
      if c = '-' ∨ c = '*' ∨ c = '+' then
        match r with
        | c2 :: _ =>
          if jsWs c2 then
            some ([' '], (r.takeWhile jsWs).getLast? = some '\n', r.dropWhile jsWs)
          else none
        | [] => none
      else none
    | [] => none

/-- `^[\s]*\d+\.\s+` (m) → `' '` (numbered list markers). -/
def stepNumbered (ls : Bool) (t : List Char) :
    Option (List Char × Bool × List Char) :=
  if ¬ ls then none
  else
    match t.dropWhile jsWs with
    | c :: r =>
      if c.isDigit then
        match (c :: r).dropWhile Char.isDigit with
        | '.' :: r2 =>
          match r2 with
          | c3 :: _ =>
            if jsWs c3 then
              some ([' '], (r2.takeWhile jsWs).getLast? = some '\n', r2.dropWhile jsWs)
            else none
          | [] => none
        | _ => none
      else none
    | [] => none

/-- The `[-*_]` class of markdown horizontal rules. -/
def hrChar (c : Char) : Bool :=
  c = '-' ∨ c = '*' ∨ c = '_'

/-- `^[-*_]{3,}$` (m) → `' '` (horizontal rules; `$` consumes nothing). -/
def stepHr (ls : Bool) (t : List Char) :
    Option (List Char × Bool × List Char) :=
  if ¬ ls then none
  else
    let run := t.takeWhile hrChar
    let rest := t.dropWhile hrChar
    if run.length ≥ 3 ∧ (rest = [] ∨ rest.head? = some '\n') then
      some ([' '], false, rest)
    else none

/-- `<[^>]+>` → `' '` (HTML tags). -/
def stepHtml (_ls : Bool) (t : List Char) :
    Option (List Char × Bool × List Char) :=
  match t with
  | '<' :: r1 =>
    let txt := r1.takeWhile (fun c => ¬ c = '>')
    if txt.isEmpty then none
    else
      match r1.dropWhile (fun c => ¬ c = '>') with
      | '>' :: r2 => some ([' '], false, r2)
      | _ => none
  | _ => none

/-- Case-sensitive literal prefix match returning the rest. -/
def litPrefix : List Char → List Char → Option (List Char)
  | [], t => some t
  | _ :: _, [] => none
  | a :: w, b :: t => if b = a then litPrefix w t else none

/-- `https?:\/\/[^\s]+` → `' '` (case-sensitive; the optional `s` is greedy,
and backtracking cannot help since `:` never equals `s`). -/
def stepHttpUrl (_ls : Bool) (t : List Char) :
    Option (List Char × Bool × List Char) :=
  match litPrefix "http".data t with
  | none => none
  | some r1 =>
    let r1' := if r1.head? = some 's' then r1.tail else r1
    match litPrefix "://".data r1' with
    | some r3 =>
      if (r3.takeWhile (fun c => ¬ jsWs c)).isEmpty then none
      else some ([' '], false, r3.dropWhile (fun c => ¬ jsWs c))
    | none => none

/-- `www\.[^\s]+` → `' '` (case-sensitive). -/
def stepWwwUrl (_ls : Bool) (t : List Char) :
    Option (List Char × Bool × List Char) :=
  match litPrefix "www.".data t with
  | some r1 =>
    if (r1.takeWhile (fun c => ¬ jsWs c)).isEmpty then none
    else some ([' '], false, r1.dropWhile (fun c => ¬ jsWs c))
  | none => none

/-- Does the (case-insensitive) literal `b` match at the head of `t`? -/
def caselessIsPrefix (b t : List Char) : Bool :=
  (matchCaselessLit b t).isSome

/-- Start index of the last case-insensitive occurrence of `b` in `line`
(greedy `.*b`). -/
def lastOcc (b : List Char) : List Char → Option Nat
  | [] => none
  | x :: xs =>
    match lastOcc b xs with
    | some j => some (j + 1)
    | none => if caselessIsPrefix b (x :: xs) then some 0 else none

/-- Start index of the first case-insensitive occurrence of `b` in `line`
(lazy `.*?b`). -/
def firstOcc (b : List Char) : List Char → Option Nat
  | [] => none
  | x :: xs =>
    if caselessIsPrefix b (x :: xs) then some 0 else (firstOcc b xs).map (· + 1)

/-- Total length consumed by `b.*c` inside `line` when the `.*` before `b` is
maximal (later `b` positions preferred) and the `.*` before `c` is then
maximal (last `c` occurrence), as JavaScript's leftmost-greedy matching
does. -/
def lastBThenCLen (b c : List Char) : List Char → Option Nat
  | [] => none
  | x :: xs =>
    match lastBThenCLen b c xs with
    | some n => some (n + 1)
    | none =>
      if caselessIsPrefix b (x :: xs) then
        match lastOcc c ((x :: xs).drop b.length) with
        | some j => some (b.length + j + c.length)
        | none => none
      else none

/-- The shapes of the boilerplate regexes (all `/gi`): a caseless literal,
`a.*b` (greedy), `a.*b.*c` (greedy), or `a.*?b` (lazy); `.` never matches a
newline. -/
inductive BoilerPat
  | lit (s : String)
  | litStarLit (a b : String)
  | litStarLitStarLit (a b c : String)
  | litLazyLit (a b : String)

/-- The number of characters a boilerplate pattern consumes at the head of
`t`, if it matches there. -/
def boilerMatchLen (p : BoilerPat) (t : List Char) : Option Nat :=
  match p with
  | .lit s => if caselessIsPrefix s.data t then some s.data.length else none
  | .litStarLit a b =>
    match matchCaselessLit a.data t with
    | none => none
    | some (_, r1) =>
      let line := r1.takeWhile (fun ch => ¬ ch = '\n')
      match lastOcc b.data line with
      | some j => some (a.data.length + j + b.data.length)
      | none => none
  | .litStarLitStarLit a b c =>
    match matchCaselessLit a.data t with
    | none => none
    | some (_, r1) =>
      let line := r1.takeWhile (fun ch => ¬ ch = '\n')
      match lastBThenCLen b.data c.data line with
      | some n => some (a.data.length + n)
      | none => none
  | .litLazyLit a b =>
    match matchCaselessLit a.data t with
    | none => none
    | some (_, r1) =>
      let line := r1.takeWhile (fun ch => ¬ ch = '\n')
      match firstOcc b.data line with
      | some j => some (a.data.length + j + b.data.length)
      | none => none

/-- One boilerplate-removal pass step: a match is replaced by `' '`.  The
matched text never ends in a newline (every pattern ends in a literal without
newlines), so the line-start flag after a match is false. -/
def stepBoiler (p : BoilerPat) (_ls : Bool) (t : List Char) :
    Option (List Char × Bool × List Char) :=
  match boilerMatchLen p t with
  | some n => some ([' '], false, t.drop n)
  | none => none

/-- The apostrophe character (code 39). -/
def apostropheChar : Char := Char.ofNat 39

/-- `"means you've safely connected"` (built explicitly because of the
apostrophe). -/
def meansYouveSafelyConnected : String :=
  "means you" ++ ⟨[apostropheChar]⟩ ++ "ve safely connected"

/-- The `boilerplatePatterns` list of part_003 lines 136–161, in source
order. -/
def boilerplatePatterns : List BoilerPat :=
  [.lit "Skip to main content",
   .lit "Skip to content",
   .lit "Official websites use .gov",
   .lit "Secure .gov websites use HTTPS",
   .lit "A .gov website belongs to an official government organization in the United States",
   .litStarLit "A lock" meansYouveSafelyConnected,
   .litStarLitStarLit "A lock" "or https" meansYouveSafelyConnected,
   .lit "LockLocked padlock",
   .litStarLitStarLit "Lock" "padlock" "means",
   .litStarLit "You can also call" "for current highway conditions",
   .lit "You can also call 1-800-427-7623",
   .litLazyLit "Image of" ".",
   .litLazyLit "Icon" ".",
   .lit "Dot gov",
   .lit "Https",
   .lit meansYouveSafelyConnected,
   .lit "safely connected to the",
   .lit "belongs to an official government organization in the United States",
   .lit "Share sensitive information only on official, secure websites",
   .lit "Share sensitive information only on official",
   .lit "No Featured Alerts at this Time",
   .lit "Creative Conservation for Endangered Frogs",
   .lit "View All Features",
   .lit "USDA in the News"]

/-- `^[^\w\s]+$` (m) → `' '` (lines of standalone punctuation; `\w` is
`[A-Za-z0-9_]`). -/
def stepPunctLine (ls : Bool) (t : List Char) :
    Option (List Char × Bool × List Char) :=
  if ¬ ls then none
  else
    let run := t.takeWhile (fun c => ¬ (c.isAlphanum ∨ c = '_' ∨ jsWs c))
    let rest := t.dropWhile (fun c => ¬ (c.isAlphanum ∨ c = '_' ∨ jsWs c))
    if run.length ≥ 1 ∧ (rest = [] ∨ rest.head? = some '\n') then
      some ([' '], false, rest)
    else none

/-- `\s+` → `' '` collapse, fuel-bounded. -/
def collapseWSAux : Nat → List Char → List Char
  | 0, l => l
  | _ + 1, [] => []
  | fuel + 1, c :: cs =>
    if jsWs c then ' ' :: collapseWSAux fuel (cs.dropWhile jsWs)
    else c :: collapseWSAux fuel cs

/-- `text.replace(/\s+/g, ' ')`. -/
def collapseWS (l : List Char) : List Char :=
  collapseWSAux l.length l

/-- `cleanText` (src/unnamed/part_003 lines 94–180): empty input returns
`''`; otherwise the replace passes run in source order — markdown images,
links, headers, emphasis, code, list markers, horizontal rules; HTML tags;
URLs; the boilerplate phrase list; standalone punctuation lines — and the
result's whitespace is collapsed and trimmed. -/
def cleanText (text : String) : String :=
  if text = "" then ""
  else
    let c1 := runStep stepImgLink text.data
    let c2 := runStep stepImgRef c1
    let c3 := runStep stepLink c2
    let c4 := runStep stepHeader c3
    let c5 := runStep stepBold c4
    let c6 := runStep stepItalic c5
    let c7 := runStep stepBoldU c6
    let c8 := runStep stepItalicU c7
    let c9 := runStep stepCodeFence c8
    let c10 := runStep stepCodeInline c9
    let c11 := runStep stepBullet c10
    let c12 := runStep stepNumbered c11
    let c13 := runStep stepHr c12
    let c14 := runStep stepHtml c13
    let c15 := runStep stepHttpUrl c14
    let c16 := runStep stepWwwUrl c15
    let c17 := boilerplatePatterns.foldl (fun acc p => runStep (stepBoiler p) acc) c16
    let c18 := runStep stepPunctLine c17
    ⟨jsTrimChars (collapseWS c18)⟩

/-- The normal form "unchanged aside from whitespace collapsing": whitespace
runs collapsed to single spaces and the ends trimmed (the final step of
`cleanText`). -/
def whitespaceCollapse (s : String) : String :=
  ⟨jsTrimChars (collapseWS s.data)⟩

/-- Case-insensitive substring test between strings (lowercased infix). -/
def caselessInfixB (w s : String) : Bool :=
  isInfixChars (w.data.map Char.toLower) (s.data.map Char.toLower)

/-- A character of already-normalized plain prose: a letter or a space —
in particular none of the markup trigger characters (`!`, `[`, `#`, `*`,
`_`, a backtick, `<`, `-`, `+`), no digit, and no newline. -/
def CharOk (c : Char) : Prop :=
  (c.isAlpha = true ∨ c = ' ') ∧ c.isDigit = false ∧
  c ∉ (['!', '[', '#', '*', '_', backtickChar, '<', '-', '+', '\n'] : List Char)

instance : DecidablePred CharOk := fun c => by
  unfold CharOk
  infer_instance

/-- The leading literal of each boilerplate pattern. -/
def leadLit : BoilerPat → String
  | .lit s => s
  | .litStarLit a _ => a
  | .litStarLitStarLit a _ _ => a
  | .litLazyLit a _ => a

/-- The case-insensitive phrases an already-normalized plain-prose input must
not contain for `cleanText` to leave it alone: the leading literals of the
boilerplate patterns, plus the URL markers. -/
def cleanTriggerPhrases : List String :=
  (boilerplatePatterns.map leadLit) ++ ["http", "www."]

/-- "Already-normalized plain prose": letters and spaces only, containing none
of the boilerplate phrases or URL markers. -/
def PlainProse (s : String) : Prop :=
  (∀ c ∈ s.data, CharOk c) ∧
  (∀ p ∈ cleanTriggerPhrases, caselessInfixB p s = false)

/-- A replace pass whose step never fires on any suffix of the input leaves
the input unchanged. -/
theorem replaceScan_id
    (step : Bool → List Char → Option (List Char × Bool × List Char)) :
    ∀ (l : List Char), (∀ ls t, t <:+ l → step ls t = none) →
      ∀ (fuel : Nat) (ls : Bool), replaceScan step fuel ls l = l := by
  intro l
  induction l with
  | nil =>
    intro _ fuel ls
    cases fuel <;> rfl
  | cons c cs ih =>
    intro h fuel ls
    cases fuel with
    | zero => rfl
    | succ fuel =>
      have hstep := h ls (c :: cs) List.suffix_rfl
      simp only [replaceScan, hstep]
      have := ih (fun ls2 t ht => h ls2 t (ht.trans (List.suffix_cons c cs))) fuel (c = '\n')
      rw [this]

/-- `runStep` version of `replaceScan_id`. -/
theorem runStep_id (step : Bool → List Char → Option (List Char × Bool × List Char))
    (l : List Char) (h : ∀ ls t, t <:+ l → step ls t = none) :
    runStep step l = l :=
  replaceScan_id step l h l.length true

/-- Head of a suffix is a member of the list. -/
theorem mem_of_suffix_head {c : Char} {cs l : List Char} (h : (c :: cs) <:+ l) :
    c ∈ l :=
  h.subset (List.mem_cons_self c cs)

/-- On plain prose, the image-with-target step never fires (no `!`). -/
theorem stepImgLink_none (l : List Char) (hl : ∀ c ∈ l, CharOk c) :
    ∀ ls t, t <:+ l → stepImgLink ls t = none := by
  intro ls t ht
  cases t with
  | nil => rfl
  | cons c cs =>
    have hc := hl c (mem_of_suffix_head ht)
    unfold stepImgLink
    split
    · rename_i r1 heq
      injection heq with h1 _
      exact absurd (by simp [h1] : c ∈ _) hc.2.2
    · rfl

/-- On plain prose, the image-without-target step never fires (no `!`). -/
theorem stepImgRef_none (l : List Char) (hl : ∀ c ∈ l, CharOk c) :
    ∀ ls t, t <:+ l → stepImgRef ls t = none := by
  intro ls t ht
  cases t with
  | nil => rfl
  | cons c cs =>
    have hc := hl c (mem_of_suffix_head ht)
    unfold stepImgRef
    split
    · rename_i r1 heq
      injection heq with h1 _
      exact absurd (by simp [h1] : c ∈ _) hc.2.2
    · rfl

/-- On plain prose, the link step never fires (no `[`). -/
theorem stepLink_none (l : List Char) (hl : ∀ c ∈ l, CharOk c) :
    ∀ ls t, t <:+ l → stepLink ls t = none := by
  intro ls t ht
  cases t with
  | nil => rfl
  | cons c cs =>
    have hc := hl c (mem_of_suffix_head ht)
    unfold stepLink
    split
    · rename_i r1 heq
      injection heq with h1 _
      exact absurd (by simp [h1] : c ∈ _) hc.2.2
    · rfl

/-- On plain prose, the header step never fires (no `#`). -/
theorem stepHeader_none (l : List Char) (hl : ∀ c ∈ l, CharOk c) :
    ∀ ls t, t <:+ l → stepHeader ls t = none := by
  intro ls t ht
  cases t with
  | nil =>
    unfold stepHeader
    split
    · rfl
    · rfl
  | cons c cs =>
    have hc := hl c (mem_of_suffix_head ht)
    unfold stepHeader
    split
    · rfl
    · split
      · rename_i heq
        injection heq with h1 _
        exact absurd (by simp [h1] : c ∈ _) hc.2.2
      · rfl

/-- On plain prose, the bold step never fires (no `*`). -/
theorem stepBold_none (l : List Char) (hl : ∀ c ∈ l, CharOk c) :
    ∀ ls t, t <:+ l → stepBold ls t = none := by
  intro ls t ht
  cases t with
  | nil => rfl
  | cons c cs =>
    have hc := hl c (mem_of_suffix_head ht)
    unfold stepBold
    split
    · rename_i r1 heq
      injection heq with h1 _
      exact absurd (by simp [h1] : c ∈ _) hc.2.2
    · rfl

/-- On plain prose, the italic step never fires (no `*`). -/
theorem stepItalic_none (l : List Char) (hl : ∀ c ∈ l, CharOk c) :
    ∀ ls t, t <:+ l → stepItalic ls t = none := by
  intro ls t ht
  cases t with
  | nil => rfl
  | cons c cs =>
    have hc := hl c (mem_of_suffix_head ht)
    unfold stepItalic
    split
    · rename_i r1 heq
      injection heq with h1 _
      exact absurd (by simp [h1] : c ∈ _) hc.2.2
    · rfl

/-- On plain prose, the bold-underscore step never fires (no `_`). -/
theorem stepBoldU_none (l : List Char) (hl : ∀ c ∈ l, CharOk c) :
    ∀ ls t, t <:+ l → stepBoldU ls t = none := by
  intro ls t ht
  cases t with
  | nil => rfl
  | cons c cs =>
    have hc := hl c (mem_of_suffix_head ht)
    unfold stepBoldU
    split
    · rename_i r1 heq
      injection heq with h1 _
      exact absurd (by simp [h1] : c ∈ _) hc.2.2
    · rfl

/-- On plain prose, the italic-underscore step never fires (no `_`). -/
theorem stepItalicU_none (l : List Char) (hl : ∀ c ∈ l, CharOk c) :
    ∀ ls t, t <:+ l → stepItalicU ls t = none := by
  intro ls t ht
  cases t with
  | nil => rfl
  | cons c cs =>
    have hc := hl c (mem_of_suffix_head ht)
    unfold stepItalicU
    split
    · rename_i r1 heq
      injection heq with h1 _
      exact absurd (by simp [h1] : c ∈ _) hc.2.2
    · rfl

/-- On plain prose, the code-fence step never fires (no backtick). -/
theorem stepCodeFence_none (l : List Char) (hl : ∀ c ∈ l, CharOk c) :
    ∀ ls t, t <:+ l → stepCodeFence ls t = none := by
  intro ls t ht
  cases t with
  | nil => rfl
  | cons c1 rest =>
    have hc := hl c1 (mem_of_suffix_head ht)
    cases rest with
    | nil => rfl
    | cons c2 rest2 =>
      cases rest2 with
      | nil => rfl
      | cons c3 r =>
        unfold stepCodeFence
        have hnc : ¬ (c1 = backtickChar ∧ c2 = backtickChar ∧ c3 = backtickChar) := by
          intro hand
          exact absurd (by simp [hand.1] : c1 ∈ _) hc.2.2
        dsimp only
        rw [if_neg hnc]

/-- On plain prose, the inline-code step never fires (no backtick). -/
theorem stepCodeInline_none (l : List Char) (hl : ∀ c ∈ l, CharOk c) :
    ∀ ls t, t <:+ l → stepCodeInline ls t = none := by
  intro ls t ht
  cases t with
  | nil => rfl
  | cons c r =>
    have hc := hl c (mem_of_suffix_head ht)
    unfold stepCodeInline
    have hnc : ¬ c = backtickChar := by
      intro hand
      exact absurd (by simp [hand] : c ∈ _) hc.2.2
    dsimp only
    rw [if_neg hnc]

/-- On plain prose, the bullet-list step never fires (the first non-whitespace
character of any suffix is a letter, not `-`, `*` or `+`). -/
theorem stepBullet_none (l : List Char) (hl : ∀ c ∈ l, CharOk c) :
    ∀ ls t, t <:+ l → stepBullet ls t = none := by
  intro ls t ht
  unfold stepBullet
  split
  · rfl
  · cases hdrop : t.dropWhile jsWs with
    | nil => rfl
    | cons c r =>
      have hcmem : c ∈ l :=
        ht.subset ((List.dropWhile_sublist jsWs).subset (hdrop ▸ List.mem_cons_self c r))
      have hc := hl c hcmem
      have hnc : ¬ (c = '-' ∨ c = '*' ∨ c = '+') := by
        rintro (h1 | h1 | h1) <;> exact absurd (by simp [h1] : c ∈ _) hc.2.2
      dsimp only
      rw [if_neg hnc]

/-- On plain prose, the numbered-list step never fires (no digits). -/
theorem stepNumbered_none (l : List Char) (hl : ∀ c ∈ l, CharOk c) :
    ∀ ls t, t <:+ l → stepNumbered ls t = none := by
  intro ls t ht
  unfold stepNumbered
  split
  · rfl
  · cases hdrop : t.dropWhile jsWs with
    | nil => rfl
    | cons c r =>
      have hcmem : c ∈ l :=
        ht.subset ((List.dropWhile_sublist jsWs).subset (hdrop ▸ List.mem_cons_self c r))
      have hc := hl c hcmem
      have hnc : ¬ c.isDigit = true := by
        rw [hc.2.1]
        exact Bool.false_ne_true
      dsimp only
      rw [if_neg hnc]

/-- On plain prose, the horizontal-rule step never fires. -/
theorem stepHr_none (l : List Char) (hl : ∀ c ∈ l, CharOk c) :
    ∀ ls t, t <:+ l → stepHr ls t = none := by
  intro ls t ht
  unfold stepHr
  split
  · rfl
  · cases t with
    | nil =>
      rw [if_neg]
      intro hand
      simp [List.takeWhile] at hand
    | cons c cs =>
      have hc := hl c (mem_of_suffix_head ht)
      have hnc : hrChar c = false := by
        unfold hrChar
        have : ¬ (c = '-' ∨ c = '*' ∨ c = '_') := by
          rintro (h1 | h1 | h1) <;> exact absurd (by simp [h1] : c ∈ _) hc.2.2
        simpa using this
      rw [if_neg]
      intro hand
      rcases hand with ⟨hlen, _⟩
      rw [List.takeWhile_cons, hnc] at hlen
      simp at hlen

/-- On plain prose, the HTML-tag step never fires (no `<`). -/
theorem stepHtml_none (l : List Char) (hl : ∀ c ∈ l, CharOk c) :
    ∀ ls t, t <:+ l → stepHtml ls t = none := by
  intro ls t ht
  cases t with
  | nil => rfl
  | cons c cs =>
    have hc := hl c (mem_of_suffix_head ht)
    unfold stepHtml
    split
    · rename_i r1 heq
      injection heq with h1 _
      exact absurd (by simp [h1] : c ∈ _) hc.2.2
    · rfl

/-- On plain prose, the standalone-punctuation step never fires (every
character is a letter or a space). -/
theorem stepPunctLine_none (l : List Char) (hl : ∀ c ∈ l, CharOk c) :
    ∀ ls t, t <:+ l → stepPunctLine ls t = none := by
  intro ls t ht
  unfold stepPunctLine
  split
  · rfl
  · cases t with
    | nil =>
      rw [if_neg]
      intro hand
      simp [List.takeWhile] at hand
    | cons c cs =>
      have hc := hl c (mem_of_suffix_head ht)
      have hclass : (¬ (c.isAlphanum ∨ c = '_' ∨ jsWs c) : Bool) = false := by
        rcases hc.1 with h1 | h1
        · simp [Char.isAlphanum, h1]
        · subst h1
          simp [jsWs]
      rw [if_neg]
      intro hand
      rcases hand with ⟨hlen, _⟩
      rw [List.takeWhile_cons, hclass] at hlen
      simp at hlen

/-- A prefix of a suffix is a substring. -/
theorem isInfixChars_of_prefix_suffix (w : List Char) :
    ∀ (l t : List Char), isPrefixChars w t = true → t <:+ l →
      isInfixChars w l = true := by
  intro l
  induction l with
  | nil =>
    intro t hp hs
    rw [List.suffix_nil.mp hs] at hp
    simpa [isInfixChars] using hp
  | cons c cs ih =>
    intro t hp hs
    rcases hs with ⟨u, hu⟩
    cases u with
    | nil =>
      simp only [List.nil_append] at hu
      subst hu
      simp [isInfixChars, hp]
    | cons x xs =>
      injection hu with h1 h2
      simp only [isInfixChars, Bool.or_eq_true]
      exact Or.inr (ih t hp ⟨xs, h2⟩)

/-- A successful case-insensitive literal match lowers to a prefix of the
lowered text. -/
theorem matchCaselessLit_lowerPref :
    ∀ (w t : List Char) (p : List Char × List Char),
      matchCaselessLit w t = some p →
      isPrefixChars (w.map Char.toLower) (t.map Char.toLower) = true := by
  intro w
  induction w with
  | nil => intro t p _; simp [isPrefixChars]
  | cons a w ih =>
    intro t p h
    cases t with
    | nil => simp [matchCaselessLit] at h
    | cons b t =>
      unfold matchCaselessLit at h
      split at h
      · rename_i heq
        cases hm : matchCaselessLit w t with
        | none => rw [hm] at h; simp at h
        | some q =>
          simp only [List.map_cons, isPrefixChars]
          rw [if_pos (by rw [heq])]
          exact ih t q hm
      · simp at h

/-- A successful case-sensitive literal match lowers to a prefix of the
lowered text. -/
theorem litPrefix_lowerPref :
    ∀ (w t : List Char) (r : List Char),
      litPrefix w t = some r →
      isPrefixChars (w.map Char.toLower) (t.map Char.toLower) = true := by
  intro w
  induction w with
  | nil => intro t r _; simp [isPrefixChars]
  | cons a w ih =>
    intro t r h
    cases t with
    | nil => simp [litPrefix] at h
    | cons b t =>
      unfold litPrefix at h
      split at h
      · rename_i heq
        simp only [List.map_cons, isPrefixChars]
        rw [if_pos (by rw [heq])]
        exact ih t r h
      · simp at h

/-- If a case-insensitive literal matches at some suffix of `l`, the lowered
literal is a substring of the lowered `l`. -/
theorem caseless_match_infix (w : List Char) (l t : List Char)
    (ht : t <:+ l) (p : List Char × List Char)
    (h : matchCaselessLit w t = some p) :
    isInfixChars (w.map Char.toLower) (l.map Char.toLower) = true :=
  isInfixChars_of_prefix_suffix _ _ _
    (matchCaselessLit_lowerPref w t p h) (ht.map Char.toLower)

/-- On inputs avoiding the pattern's leading literal, a boilerplate step never
fires. -/
theorem stepBoiler_none (p : BoilerPat) (l : List Char)
    (h : isInfixChars ((leadLit p).data.map Char.toLower)
          (l.map Char.toLower) = false) :
    ∀ ls t, t <:+ l → stepBoiler p ls t = none := by
  intro ls t ht
  unfold stepBoiler
  cases p with
  | lit s =>
    cases hml : boilerMatchLen (.lit s) t with
    | none => rfl
    | some n =>
      exfalso
      unfold boilerMatchLen at hml
      dsimp only at hml
      split at hml
      · rename_i hpre
        unfold caselessIsPrefix at hpre
        cases hm : matchCaselessLit s.data t with
        | none => rw [hm] at hpre; simp at hpre
        | some q =>
          have hinf := caseless_match_infix s.data l t ht q hm
          simp only [leadLit] at h
          rw [hinf] at h
          exact Bool.noConfusion h
      · simp at hml
  | litStarLit a b =>
    cases hml : boilerMatchLen (.litStarLit a b) t with
    | none => rfl
    | some n =>
      exfalso
      unfold boilerMatchLen at hml
      dsimp only at hml
      cases hm : matchCaselessLit a.data t with
      | none => rw [hm] at hml; simp at hml
      | some q =>
        have hinf := caseless_match_infix a.data l t ht q hm
        simp only [leadLit] at h
        rw [hinf] at h
        exact Bool.noConfusion h
  | litStarLitStarLit a b c =>
    cases hml : boilerMatchLen (.litStarLitStarLit a b c) t with
    | none => rfl
    | some n =>
      exfalso
      unfold boilerMatchLen at hml
      dsimp only at hml
      cases hm : matchCaselessLit a.data t with
      | none => rw [hm] at hml; simp at hml
      | some q =>
        have hinf := caseless_match_infix a.data l t ht q hm
        simp only [leadLit] at h
        rw [hinf] at h
        exact Bool.noConfusion h
  | litLazyLit a b =>
    cases hml : boilerMatchLen (.litLazyLit a b) t with
    | none => rfl
    | some n =>
      exfalso
      unfold boilerMatchLen at hml
      dsimp only at hml
      cases hm : matchCaselessLit a.data t with
      | none => rw [hm] at hml; simp at hml
      | some q =>
        have hinf := caseless_match_infix a.data l t ht q hm
        simp only [leadLit] at h
        rw [hinf] at h
        exact Bool.noConfusion h

/-- On inputs avoiding "http" (case-insensitively), the URL step never
fires. -/
theorem stepHttpUrl_none (l : List Char)
    (h : isInfixChars ("http".data.map Char.toLower) (l.map Char.toLower) = false) :
    ∀ ls t, t <:+ l → stepHttpUrl ls t = none := by
  intro ls t ht
  unfold stepHttpUrl
  cases hm : litPrefix "http".data t with
  | none => rfl
  | some r =>
    exfalso
    have hinf := isInfixChars_of_prefix_suffix _ _ _
      (litPrefix_lowerPref "http".data t r hm) (ht.map Char.toLower)
    rw [hinf] at h
    exact Bool.noConfusion h

/-- On inputs avoiding "www." (case-insensitively), the www step never
fires. -/
theorem stepWwwUrl_none (l : List Char)
    (h : isInfixChars ("www.".data.map Char.toLower) (l.map Char.toLower) = false) :
    ∀ ls t, t <:+ l → stepWwwUrl ls t = none := by
  intro ls t ht
  unfold stepWwwUrl
  cases hm : litPrefix "www.".data t with
  | none => rfl
  | some r =>
    exfalso
    have hinf := isInfixChars_of_prefix_suffix _ _ _
      (litPrefix_lowerPref "www.".data t r hm) (ht.map Char.toLower)
    rw [hinf] at h
    exact Bool.noConfusion h

/-- The boilerplate fold is the identity when no pattern matches anywhere. -/
theorem boilerFold_id (l : List Char) :
    ∀ (ps : List BoilerPat),
      (∀ p ∈ ps, ∀ ls t, t <:+ l → stepBoiler p ls t = none) →
      ps.foldl (fun acc p => runStep (stepBoiler p) acc) l = l := by
  intro ps
  induction ps with
  | nil => intro _; rfl
  | cons p ps ih =>
    intro h
    simp only [List.foldl_cons]
    rw [runStep_id (stepBoiler p) l (h p (List.mem_cons_self p ps))]
    exact ih (fun q hq => h q (List.mem_cons_of_mem p hq))

/-- C8 amended: on already-normalized plain prose (letters and spaces, none of
the boilerplate phrases or URL markers), `cleanText` is the identity aside
from whitespace collapsing and trimming.  (It is *not* idempotent on arbitrary
strings; see the counterexample.) -/
theorem cleanText_plain_prose_identity (s : String) (hp : PlainProse s) :
    cleanText s = whitespaceCollapse s := by
  obtain ⟨hchars, hphrases⟩ := hp
  by_cases hs : s = ""
  · subst hs
    rfl
  · have hboiler : ∀ p ∈ boilerplatePatterns, ∀ ls t, t <:+ s.data →
        stepBoiler p ls t = none := by
      intro p hpmem
      apply stepBoiler_none
      have hmem : leadLit p ∈ cleanTriggerPhrases :=
        List.mem_append_left _ (List.mem_map_of_mem leadLit hpmem)
      exact hphrases (leadLit p) hmem
    have hhttp : isInfixChars ("http".data.map Char.toLower)
        (s.data.map Char.toLower) = false :=
      hphrases "http" (List.mem_append_right _ (by simp))
    have hwww : isInfixChars ("www.".data.map Char.toLower)
        (s.data.map Char.toLower) = false :=
      hphrases "www." (List.mem_append_right _ (by simp))
    unfold cleanText
    rw [if_neg hs]
    dsimp only
    rw [runStep_id stepImgLink s.data (stepImgLink_none s.data hchars)]
    rw [runStep_id stepImgRef s.data (stepImgRef_none s.data hchars)]
    rw [runStep_id stepLink s.data (stepLink_none s.data hchars)]
    rw [runStep_id stepHeader s.data (stepHeader_none s.data hchars)]
    rw [runStep_id stepBold s.data (stepBold_none s.data hchars)]
    rw [runStep_id stepItalic s.data (stepItalic_none s.data hchars)]
    rw [runStep_id stepBoldU s.data (stepBoldU_none s.data hchars)]
    rw [runStep_id stepItalicU s.data (stepItalicU_none s.data hchars)]
    rw [runStep_id stepCodeFence s.data (stepCodeFence_none s.data hchars)]
    rw [runStep_id stepCodeInline s.data (stepCodeInline_none s.data hchars)]
    rw [runStep_id stepBullet s.data (stepBullet_none s.data hchars)]
    rw [runStep_id stepNumbered s.data (stepNumbered_none s.data hchars)]
    rw [runStep_id stepHr s.data (stepHr_none s.data hchars)]
    rw [runStep_id stepHtml s.data (stepHtml_none s.data hchars)]
    rw [runStep_id stepHttpUrl s.data (stepHttpUrl_none s.data hhttp)]
    rw [runStep_id stepWwwUrl s.data (stepWwwUrl_none s.data hwww)]
    rw [boilerFold_id s.data boilerplatePatterns hboiler]
    rw [runStep_id stepPunctLine s.data (stepPunctLine_none s.data hchars)]
    rfl

/-- Witness for C8 (amended): a concrete plain-prose sentence is returned
verbatim by `cleanText` (it is already whitespace-normalized). -/
theorem cleanText_plain_prose_identity_witness :
    PlainProse "Road is clear and open today" ∧
    cleanText "Road is clear and open today" = "Road is clear and open today" := by
  constructor
  · constructor
    · decide
    · decide
  · have h := cleanText_plain_prose_identity "Road is clear and open today"
      ⟨by decide, by decide⟩
    rw [h]
    decide

/-- Counterexample to C8 as stated: `cleanText` is not idempotent.  A nested
markdown link denormalizes — the outer link replacement manufactures a fresh
well-formed link that only a second pass would strip: one pass yields
`"[a](c)"`, a second pass yields `"a"`. -/
theorem cleanText_not_idempotent :
    cleanText "[[a](b)](c)" = "[a](c)" ∧
    cleanText (cleanText "[[a](b)](c)") = "a" ∧
    cleanText (cleanText "[[a](b)](c)") ≠ cleanText "[[a](b)](c)" := by
  refine ⟨by decide, by decide, by decide⟩
